import Mathlib

/-!
Verification of the `blink` asynchronous job engine against its specification.

The development shallowly embeds the parts of the Python source that the
claims concern:

* `src/rest/cursor_api/utils/stream_json_parser.py` — the stream-event parser;
* `src/rest/cursor_api/utils/bubble.py` — bubble builder and validator;
* `src/rest/cursor_api/services/job_service.py` — the in-memory job store;
* `src/rest/cursor_api/api/jobs.py` — the cancel endpoint;
* `src/rest/cursor_api/services/agent_service.py` — command construction and
  the local/remote job execution paths;
* `src/rest/cursor_api/services/ssh_agent_service.py` — the remote command;
* `src/rest/cursor_api/database/operations.py` — transactional writes to the
  shared conversation store.

Python's dynamically-typed JSON values are embedded as the inductive `JVal`;
Python exceptions (`AttributeError` from calling `.get` on a non-dict,
`TypeError` from joining non-strings or iterating a non-iterable) are embedded
with an `Except PyErr` monad.  `subprocess.run`, wall-clock timestamps and uuid
generation are supplied as explicit oracle inputs.
-/

set_option maxHeartbeats 1000000

namespace Blink

/-- Embedding of a Python JSON value (result of `json.loads`).  Dicts are
association lists; `json.loads` produces dicts with distinct keys. -/
inductive JVal where
  | jNull : JVal
  | jBool : Bool → JVal
  | jNum : Int → JVal
  | jStr : String → JVal
  | jArr : List JVal → JVal
  | jObj : List (String × JVal) → JVal

namespace JVal

/-- `dict.get(k)` on a Python dict: the value at key `k`, if present.
`json.loads` keeps the last occurrence of a duplicated key, so lookup takes
the last binding. -/
def dictGet (fs : List (String × JVal)) (k : String) : Option JVal :=
  (fs.filter (fun p => p.1 = k)).getLast?.map Prod.snd

/-- Python truthiness (`if x:`) for embedded JSON values:
`None`, `False`, `0`, `""`, `[]` and `{}` are falsy. -/
def truthy : JVal → Bool
  | jNull => false
  | jBool b => b
  | jNum n => n != 0
  | jStr s => s != ""
  | jArr xs => !xs.isEmpty
  | jObj fs => !fs.isEmpty

end JVal

open JVal


/-- Embedded Python exceptions that the stream parser can raise.
`attributeError` models calling `.get` on a value that is not a dict;
`typeError` models `''.join` over non-strings or `for _ in x` over a
non-iterable. -/
inductive PyErr where
  | attributeError : PyErr
  | typeError : PyErr
  deriving DecidableEq, Repr

/-- `x.get(k)`: `AttributeError` unless `x` is a dict, else optional lookup. -/
def pyGet (v : JVal) (k : String) : Except PyErr (Option JVal) :=
  match v with
  | .jObj fs => .ok (dictGet fs k)
  | _ => .error .attributeError

/-- `x.get(k, default)`. -/
def pyGetD (v : JVal) (k : String) (d : JVal) : Except PyErr JVal :=
  (pyGet v k).map (fun o => o.getD d)

/-- Python `for item in x`: lists iterate their elements, strings their
characters, dicts their keys; other values raise `TypeError`. -/
def pyIter : JVal → Except PyErr (List JVal)
  | .jArr xs => .ok xs
  | .jStr s => .ok (s.toList.map (fun c => .jStr (String.singleton c)))
  | .jObj fs => .ok (fs.map (fun p => .jStr p.1))
  | _ => .error .typeError

/-- `''.join(parts)` / `sep.join(parts)`: `TypeError` unless every element is
a string. -/
def pyJoin (sep : String) (parts : List JVal) : Except PyErr String :=
  match parts with
  | [] => .ok ""
  | .jStr s :: rest => (pyJoin sep rest).map (fun r =>
      if rest.isEmpty then s else s ++ sep ++ r)
  | _ => .error .typeError

/-- Python `str(x)` as used in f-string interpolation.  Nested containers use
`repr`; the exact rendering of containers is irrelevant to every claim (it
only feeds the display-only `explanation` string). -/
def pyStr : JVal → String
  | .jNull => "None"
  | .jBool true => "True"
  | .jBool false => "False"
  | .jNum n => toString n
  | .jStr s => s
  | .jArr _ => "[...]"
  | .jObj _ => "{...}"

/-- Python `x == 'lit'` for an optional embedded value (`dict.get` result):
true exactly when the value is present and is that string. -/
def isStrVal (o : Option JVal) (s : String) : Bool :=
  match o with
  | some (.jStr t) => t == s
  | _ => false

/-! ### Stream event parser
Embedding of `StreamJsonParser` (`utils/stream_json_parser.py`).

`parse_stream` splits its input string into lines, skips empty lines, and
feeds each remaining line to `json.loads`, skipping lines that raise
`json.JSONDecodeError`.  The parser's behaviour depends on the input string
only through the per-line decode outcomes, so the embedding takes the input
as `List (Option JVal)`: one entry per non-empty line, `some v` when
`json.loads` succeeds with value `v` and `none` when it raises
(e.g. the input string `"5"` corresponds to `[some (.jNum 5)]`,
and `"not json"` to `[none]`). -/

/-- Mutable state of a `StreamJsonParser` instance. -/
structure ParserState where
  thinking_parts : List JVal
  tool_calls : List JVal
  final_result : Option JVal
  assistant_messages : List JVal

/-- `StreamJsonParser.__init__` / `_reset`. -/
def resetState : ParserState :=
  { thinking_parts := [], tool_calls := [], final_result := none,
    assistant_messages := [] }

/-- Result of `_build_result` (the returned dict).  `text` is whatever value
the `"text"` key holds — the source does not guarantee it is a string. -/
structure ParsedOutput where
  text : JVal
  thinking : Option String
  tool_calls : Option (List JVal)
  assistant_messages : List JVal

/-- `StreamJsonParser._process_thinking`. -/
def processThinking (event : JVal) (subtype : Option JVal)
    (st : ParserState) : Except PyErr ParserState :=
  if isStrVal subtype "delta" then do
    let text ← pyGetD event "text" (.jStr "")
    if truthy text then
      pure { st with thinking_parts := st.thinking_parts ++ [text] }
    else
      pure st
  else if isStrVal subtype "completed" then do
    let text ← pyGetD event "text" (.jStr "")
    if truthy text && st.thinking_parts.isEmpty then
      pure { st with thinking_parts := [text] }
    else
      pure st
  else
    pure st

/-- The normalized tool record built by `_process_tool_call` for a completed
shell tool call (given `args`, `result.success` already extracted).  The
`result` sub-dict is added only when `success_data` is truthy. -/
def mkToolInfo (args success : JVal) : Except PyErr JVal := do
  let command ← pyGetD args "command" (.jStr "")
  let wd ← pyGetD args "workingDirectory" (.jStr "")
  let base : List (String × JVal) :=
    [("name", .jStr "run_terminal_cmd"),
     ("command", command),
     ("explanation", .jStr ("Execute shell command: " ++ pyStr command)),
     ("arguments", .jObj [("command", command), ("working_directory", wd)])]
  if truthy success then do
    let exitCode ← pyGet success "exitCode"
    let stdout ← pyGetD success "stdout" (.jStr "")
    let stderr ← pyGetD success "stderr" (.jStr "")
    let execTime ← pyGetD success "executionTime" (.jNum 0)
    pure (.jObj (base ++
      [("result", .jObj
        [("exit_code", exitCode.getD .jNull),
         ("stdout", stdout),
         ("stderr", stderr),
         ("execution_time_ms", execTime)])]))
  else
    pure (.jObj base)

/-- `StreamJsonParser._process_tool_call`. -/
def processToolCall (event : JVal) (subtype : Option JVal)
    (st : ParserState) : Except PyErr ParserState :=
  if isStrVal subtype "completed" then do
    let tool_call_data ← pyGetD event "tool_call" (.jObj [])
    let shell_tool ← pyGetD tool_call_data "shellToolCall" (.jObj [])
    if truthy shell_tool then do
      let args ← pyGetD shell_tool "args" (.jObj [])
      let result ← pyGetD shell_tool "result" (.jObj [])
      let success_data ← pyGetD result "success" (.jObj [])
      let tool_info ← mkToolInfo args success_data
      pure { st with tool_calls := st.tool_calls ++ [tool_info] }
    else
      pure st
  else
    pure st

/-- The body of `_process_assistant_message`'s `for item in content` loop. -/
def processContentItems (items : List JVal) (st : ParserState) :
    Except PyErr ParserState :=
  match items with
  | [] => .ok st
  | item :: rest => do
    let t ← pyGet item "type"
    if isStrVal t "text" then do
      let text ← pyGetD item "text" (.jStr "")
      if truthy text then
        processContentItems rest
          { st with assistant_messages := st.assistant_messages ++ [text] }
      else
        processContentItems rest st
    else
      processContentItems rest st

/-- `StreamJsonParser._process_assistant_message`. -/
def processAssistant (event : JVal) (st : ParserState) :
    Except PyErr ParserState := do
  let message ← pyGetD event "message" (.jObj [])
  let content ← pyGetD message "content" (.jArr [])
  let items ← pyIter content
  processContentItems items st

/-- `StreamJsonParser._process_result`. -/
def processResult (event : JVal) (st : ParserState) :
    Except PyErr ParserState := do
  let sub ← pyGet event "subtype"
  if isStrVal sub "success" then do
    let r ← pyGetD event "result" (.jStr "")
    pure { st with final_result := some r }
  else
    pure st

/-- `StreamJsonParser._process_event`. -/
def processEvent (event : JVal) (st : ParserState) :
    Except PyErr ParserState := do
  let event_type ← pyGet event "type"
  let subtype ← pyGet event "subtype"
  if isStrVal event_type "thinking" then
    processThinking event subtype st
  else if isStrVal event_type "tool_call" then
    processToolCall event subtype st
  else if isStrVal event_type "assistant" then
    processAssistant event st
  else if isStrVal event_type "result" then
    processResult event st
  else
    pure st

/-- The line loop of `parse_stream`: lines that fail `json.loads` (`none`)
are skipped; decoded events are processed in order. -/
def processLines (lines : List (Option JVal)) (st : ParserState) :
    Except PyErr ParserState :=
  match lines with
  | [] => .ok st
  | none :: rest => processLines rest st
  | some e :: rest => do
    let st' ← processEvent e st
    processLines rest st'

/-- `StreamJsonParser._build_result`. -/
def buildResult (st : ParserState) : Except PyErr ParsedOutput := do
  let thinking ←
    if !st.thinking_parts.isEmpty then
      (pyJoin "" st.thinking_parts).map some
    else
      pure none
  let text0 : Option JVal := st.final_result
  let falsy0 : Bool := match text0 with | none => true | some v => !truthy v
  let text1 : Option JVal ←
    if falsy0 && !st.assistant_messages.isEmpty then
      (pyJoin "\n\n" st.assistant_messages).map (fun s => some (.jStr s))
    else
      pure text0
  let text : JVal :=
    match text1 with
    | none => .jStr ""
    | some v => if truthy v then v else .jStr ""
  pure { text := text,
         thinking := thinking,
         tool_calls := if st.tool_calls.isEmpty then none
                       else some st.tool_calls,
         assistant_messages := st.assistant_messages }

/-- `StreamJsonParser.parse_stream`.  The method first calls `_reset`, so the
result never depends on the parser instance's prior state `self`. -/
def parseStream (self : ParserState) (lines : List (Option JVal)) :
    Except PyErr ParsedOutput :=
  let _ := self
  (processLines lines resetState).bind buildResult

/-- `parse_cursor_agent_output`: runs a fresh parser. -/
def parseCursorAgentOutput (lines : List (Option JVal)) :
    Except PyErr ParsedOutput :=
  parseStream resetState lines

/-! ### Well-shaped events and the parser's reduction, stated declaratively

`wfEvent` is a (sufficient, decidable) shape condition on a decoded line
under which `_process_event` cannot raise and only appends strings to its
text buffers: the event is a JSON object, and every field the parser
consumes structurally has the shape the code expects (dicts where `.get` is
called on it, an array of objects for assistant content, strings for text
payloads). -/

/-- `v` is a JSON string. -/
def isStr : JVal → Bool
  | .jStr _ => true
  | _ => false

/-- Total `x.get(k, d)` for spec-side functions: default when `x` is not a
dict. -/
def objGetD (v : JVal) (k : String) (d : JVal) : JVal :=
  match v with
  | .jObj fs => (dictGet fs k).getD d
  | _ => d

/-- Key `k` is absent or holds a string. -/
def strOrAbsent (fs : List (String × JVal)) (k : String) : Bool :=
  match dictGet fs k with
  | none => true
  | some (.jStr _) => true
  | some _ => false

/-- Key `k` is absent or holds an object. -/
def objOrAbsent (fs : List (String × JVal)) (k : String) : Bool :=
  match dictGet fs k with
  | none => true
  | some (.jObj _) => true
  | some _ => false

/-- Shape condition for one item of an assistant message's `content`. -/
def wfContentItem : JVal → Bool
  | .jObj ifs =>
    if isStrVal (dictGet ifs "type") "text" then strOrAbsent ifs "text"
    else true
  | _ => false

/-- Shape condition for a `tool_call` event's payload. -/
def wfToolCallPayload (fs : List (String × JVal)) : Bool :=
  match dictGet fs "tool_call" with
  | none => true
  | some (.jObj tc) =>
    (match dictGet tc "shellToolCall" with
     | none => true
     | some (.jObj sh) =>
       objOrAbsent sh "args" &&
       (match dictGet sh "result" with
        | none => true
        | some (.jObj r) => objOrAbsent r "success"
        | some _ => false)
     | some _ => false)
  | some _ => false

/-- Shape condition for an `assistant` event's payload. -/
def wfAssistantPayload (fs : List (String × JVal)) : Bool :=
  match dictGet fs "message" with
  | none => true
  | some (.jObj m) =>
    (match dictGet m "content" with
     | none => true
     | some (.jArr items) => items.all wfContentItem
     | some _ => false)
  | some _ => false

/-- A well-shaped decoded event line. -/
def wfEvent : JVal → Bool
  | .jObj fs =>
    let ty := dictGet fs "type"
    let sub := dictGet fs "subtype"
    if isStrVal ty "thinking" then
      (if isStrVal sub "delta" || isStrVal sub "completed" then
        strOrAbsent fs "text"
      else true)
    else if isStrVal ty "tool_call" then
      (if isStrVal sub "completed" then wfToolCallPayload fs else true)
    else if isStrVal ty "assistant" then wfAssistantPayload fs
    else if isStrVal ty "result" then
      (if isStrVal sub "success" then strOrAbsent fs "result" else true)
    else true
  | _ => false

/-- Every line of the input either fails to decode or decodes to a
well-shaped event. -/
def wfLines (lines : List (Option JVal)) : Bool :=
  lines.all (fun l => match l with
    | none => true
    | some e => wfEvent e)

/-- Parser-state invariant: the text buffers hold only strings, and the
stored final result (if any) is a string. -/
def stWF (st : ParserState) : Bool :=
  st.thinking_parts.all isStr && st.assistant_messages.all isStr &&
  (match st.final_result with
   | none => true
   | some v => isStr v)

/-! Declarative per-event reduction functions (the spec-side reading of
§4.5's event/reduction table, written independently of `ParserState`). -/

/-- The event's `type` field. -/
def evType (e : JVal) : Option JVal :=
  match e with
  | .jObj fs => dictGet fs "type"
  | _ => none

/-- The event's `subtype` field. -/
def evSubtype (e : JVal) : Option JVal :=
  match e with
  | .jObj fs => dictGet fs "subtype"
  | _ => none

/-- The event is a `result` event with subtype `success`. -/
def evIsResultSuccess (e : JVal) : Bool :=
  isStrVal (evType e) "result" && isStrVal (evSubtype e) "success"

/-- Effect of one event on the final-result register: the last `result` /
`success` event wins, its payload defaulting to `""`. -/
def resultStep (e : JVal) (cur : Option JVal) : Option JVal :=
  if evIsResultSuccess e then some (objGetD e "result" (.jStr "")) else cur

/-- The (non-empty, string) texts contributed by a list of `content`
items. -/
def itemTexts (items : List JVal) : List String :=
  items.foldr (fun it acc =>
    (match it with
     | .jObj ifs =>
       if isStrVal (dictGet ifs "type") "text" then
         (match (dictGet ifs "text").getD (.jStr "") with
          | .jStr s => if s ≠ "" then s :: acc else acc
          | _ => acc)
       else acc
     | _ => acc)) []

/-- The (non-empty, string) texts contributed to the intermediate-messages
buffer by one event: its `message.content` items of type `text`, in order. -/
def asstTexts (e : JVal) : List String :=
  if isStrVal (evType e) "assistant" then
    match objGetD e "message" (.jObj []) with
    | .jObj m =>
      (match (dictGet m "content").getD (.jArr []) with
       | .jArr items => itemTexts items
       | _ => [])
    | _ => []
  else []

/-- Total version of `mkToolInfo` (coincides with it when `args` and
`success` are objects). -/
def mkToolInfoSpec (args success : JVal) : JVal :=
  let command := objGetD args "command" (.jStr "")
  let wd := objGetD args "workingDirectory" (.jStr "")
  let base : List (String × JVal) :=
    [("name", .jStr "run_terminal_cmd"),
     ("command", command),
     ("explanation", .jStr ("Execute shell command: " ++ pyStr command)),
     ("arguments", .jObj [("command", command), ("working_directory", wd)])]
  if truthy success then
    .jObj (base ++
      [("result", .jObj
        [("exit_code", (match success with
            | .jObj sfs => (dictGet sfs "exitCode").getD .jNull
            | _ => .jNull)),
         ("stdout", objGetD success "stdout" (.jStr "")),
         ("stderr", objGetD success "stderr" (.jStr "")),
         ("execution_time_ms", objGetD success "executionTime" (.jNum 0))])])
  else
    .jObj base

/-- The normalized tool records contributed by one event: exactly the
`tool_call` / `completed` events with a truthy `shellToolCall` payload
contribute one record each. -/
def toolInfos (e : JVal) : List JVal :=
  if isStrVal (evType e) "tool_call" && isStrVal (evSubtype e) "completed" then
    match objGetD e "tool_call" (.jObj []) with
    | .jObj tc =>
      (match (dictGet tc "shellToolCall").getD (.jObj []) with
       | .jObj shfs =>
         if truthy (.jObj shfs) then
           let args := (dictGet shfs "args").getD (.jObj [])
           let result := (dictGet shfs "result").getD (.jObj [])
           let success := (match result with
             | .jObj r => (dictGet r "success").getD (.jObj [])
             | _ => .jObj [])
           [mkToolInfoSpec args success]
         else []
       | _ => [])
    | _ => []
  else []

/-- Effect of one event on the thinking buffer. -/
def thinkStep (e : JVal) (cur : List JVal) : List JVal :=
  if isStrVal (evType e) "thinking" then
    let t := objGetD e "text" (.jStr "")
    if isStrVal (evSubtype e) "delta" then
      (if truthy t then cur ++ [t] else cur)
    else if isStrVal (evSubtype e) "completed" then
      (if truthy t && cur.isEmpty then [t] else cur)
    else cur
  else cur

/-- Declarative one-event state transition: what `_process_event` does to a
state on a well-shaped event. -/
def stepSpec (e : JVal) (st : ParserState) : ParserState :=
  { thinking_parts := thinkStep e st.thinking_parts,
    tool_calls := st.tool_calls ++ toolInfos e,
    final_result := resultStep e st.final_result,
    assistant_messages :=
      st.assistant_messages ++ (asstTexts e).map JVal.jStr }

/-- Folding the declarative transition over the decoded lines. -/
def foldSpec (lines : List (Option JVal)) (st : ParserState) : ParserState :=
  (lines.filterMap id).foldl (fun s e => stepSpec e s) st

/-- Last `result`/`success` payload over a whole stream. -/
def lastResultOf (lines : List (Option JVal)) : Option JVal :=
  (lines.filterMap id).foldl (fun acc e => resultStep e acc) none

/-- All intermediate assistant texts over a whole stream, in order. -/
def allAsstTexts (lines : List (Option JVal)) : List String :=
  (lines.filterMap id).foldl (fun acc e => acc ++ asstTexts e) []

/-- All retained tool records over a whole stream, in order. -/
def allToolInfos (lines : List (Option JVal)) : List JVal :=
  (lines.filterMap id).foldl (fun acc e => acc ++ toolInfos e) []

/-- `sep.join(strs)` for honest string lists. -/
def joinStrs (sep : String) : List String → String
  | [] => ""
  | [s] => s
  | s :: rest => s ++ sep ++ joinStrs sep rest

/-- The fallback text: intermediate assistant messages joined with a blank
line, or `""` when there are none. -/
def asstFallback (lines : List (Option JVal)) : String :=
  if allAsstTexts lines = [] then ""
  else joinStrs "\n\n" (allAsstTexts lines)

/-- The final `text` of a well-shaped stream, per §4.5: the last
`result`/`success` payload when non-empty, else the joined intermediate
messages, else `""`. -/
def specText (lines : List (Option JVal)) : String :=
  match lastResultOf lines with
  | some (.jStr s) => if s ≠ "" then s else asstFallback lines
  | _ => asstFallback lines

/-- Strings held in a list of embedded values. -/
def strsOf (l : List JVal) : List String :=
  l.filterMap (fun v => match v with
    | .jStr s => some s
    | _ => none)

/-- Declarative value of `_build_result`'s `text` field. -/
def stTextSpec (st : ParserState) : String :=
  let fallback := if st.assistant_messages.isEmpty then ""
                  else joinStrs "\n\n" (strsOf st.assistant_messages)
  match st.final_result with
  | some (.jStr s) => if s = "" then fallback else s
  | _ => fallback

/-- Declarative value of `_build_result`'s `thinking` field for a stream. -/
def specThinking (lines : List (Option JVal)) : Option String :=
  let parts := (foldSpec lines resetState).thinking_parts
  if parts.isEmpty then none else some (joinStrs "" (strsOf parts))

/-! ### Concrete event streams used as test vectors -/

/-- An `assistant` event carrying one inline text item. -/
def exAssistantEv (t : String) : JVal :=
  .jObj [("type", .jStr "assistant"),
         ("message", .jObj [("content",
           .jArr [.jObj [("type", .jStr "text"), ("text", .jStr t)]])])]

/-- A `result` / `success` event with the given result text. -/
def exResultEv (t : String) : JVal :=
  .jObj [("type", .jStr "result"), ("subtype", .jStr "success"),
         ("result", .jStr t)]

/-- A completed `tool_call` event whose `shellToolCall` carries only an
error result (no `args`, no `success`): an "error-only stub". -/
def exErrStubEv : JVal :=
  .jObj [("type", .jStr "tool_call"), ("subtype", .jStr "completed"),
         ("tool_call", .jObj [("shellToolCall",
           .jObj [("result", .jObj [("error", .jStr "boom")])])])]

/-- A completed `tool_call` event for a successful shell command. -/
def exShellEv : JVal :=
  .jObj [("type", .jStr "tool_call"), ("subtype", .jStr "completed"),
         ("tool_call", .jObj [("shellToolCall", .jObj
           [("args", .jObj [("command", .jStr "ls"),
                            ("workingDirectory", .jStr "/tmp")]),
            ("result", .jObj [("success", .jObj
              [("exitCode", .jNum 0), ("stdout", .jStr "a.txt"),
               ("stderr", .jStr ""), ("executionTime", .jNum 12)])])])])]

/-! ### Bubble builder and validator
Embedding of `utils/bubble.py`.  `json.dumps` is embedded as `dumps`
(minimal escaping; the dumped strings are opaque payloads to every claim).
The uuids (`requestId`, `checkpointId`) and the creation timestamp that the
source draws from `uuid4()` / `datetime.now()` are supplied as explicit
arguments. -/

/-- Escape one character for a JSON string literal. -/
def jsonEscapeChar (c : Char) : String :=
  if c = '"' then "\\\"" else
  if c = '\\' then "\\\\" else
  if c = '\n' then "\\n" else
  String.singleton c

/-- Escape a string for a JSON string literal. -/
def jsonEscape (s : String) : String :=
  s.foldl (fun acc c => acc ++ jsonEscapeChar c) ""

mutual

/-- `json.dumps` on an embedded value. -/
def dumps : JVal → String
  | .jNull => "null"
  | .jBool true => "true"
  | .jBool false => "false"
  | .jNum n => toString n
  | .jStr s => "\"" ++ jsonEscape s ++ "\""
  | .jArr xs => "[" ++ dumpsList xs ++ "]"
  | .jObj fs => "\x7b" ++ dumpsObj fs ++ "\x7d"

/-- Comma-joined dump of array elements. -/
def dumpsList : List JVal → String
  | [] => ""
  | [v] => dumps v
  | v :: rest => dumps v ++ ", " ++ dumpsList rest

/-- Comma-joined dump of object entries. -/
def dumpsObj : List (String × JVal) → String
  | [] => ""
  | [(k, v)] => "\"" ++ jsonEscape k ++ "\": " ++ dumps v
  | (k, v) :: rest =>
    "\"" ++ jsonEscape k ++ "\": " ++ dumps v ++ ", " ++ dumpsObj rest

end

/-- A bubble is a Python dict: an ordered association list. -/
abbrev BubbleData : Type := List (String × JVal)

/-- The Lexical-editor `richText` structure built by `create_bubble_data`. -/
def bubbleRichText (text : JVal) : JVal :=
  .jObj [("root", .jObj
    [("children", .jArr [.jObj
      [("children", .jArr [.jObj
        [("detail", .jNum 0),
         ("format", .jNum 0),
         ("mode", .jStr "normal"),
         ("style", .jStr ""),
         ("text", text),
         ("type", .jStr "text"),
         ("version", .jNum 1)]]),
       ("direction", .jNull),
       ("format", .jStr ""),
       ("indent", .jNum 0),
       ("type", .jStr "paragraph"),
       ("version", .jNum 1)]]),
     ("direction", .jNull),
     ("format", .jStr ""),
     ("indent", .jNum 0),
     ("type", .jStr "root"),
     ("version", .jNum 1)])]

/-- The dict literal at the heart of `create_bubble_data` (everything the
builder emits unconditionally). -/
def bubbleBase (bubble_id : String) (message_type : Int) (text : JVal)
    (request_id checkpoint_id created_at : String) : BubbleData :=
  let rich_text := bubbleRichText text
  let emptyArr : JVal := .jArr []
  [("_v", .jNum 3),
     ("type", .jNum message_type),
     ("text", text),
     ("bubbleId", .jStr bubble_id),
     ("createdAt", .jStr created_at),
     ("approximateLintErrors", emptyArr),
     ("lints", emptyArr),
     ("codebaseContextChunks", emptyArr),
     ("commits", emptyArr),
     ("pullRequests", emptyArr),
     ("attachedCodeChunks", emptyArr),
     ("assistantSuggestedDiffs", emptyArr),
     ("gitDiffs", emptyArr),
     ("interpreterResults", emptyArr),
     ("images", emptyArr),
     ("attachedFolders", emptyArr),
     ("attachedFoldersNew", emptyArr),
     ("toolResults", emptyArr),
     ("notepads", emptyArr),
     ("capabilities", emptyArr),
     ("multiFileLinterErrors", emptyArr),
     ("diffHistories", emptyArr),
     ("recentLocationsHistory", emptyArr),
     ("recentlyViewedFiles", emptyArr),
     ("fileDiffTrajectories", emptyArr),
     ("docsReferences", emptyArr),
     ("webReferences", emptyArr),
     ("aiWebSearchResults", emptyArr),
     ("attachedFoldersListDirResults", emptyArr),
     ("humanChanges", emptyArr),
     ("allThinkingBlocks", emptyArr),
     ("attachedFileCodeChunksMetadataOnly", emptyArr),
     ("capabilityContexts", emptyArr),
     ("consoleLogs", emptyArr),
     ("contextPieces", emptyArr),
     ("cursorRules", emptyArr),
     ("deletedFiles", emptyArr),
     ("diffsForCompressingFiles", emptyArr),
     ("diffsSinceLastApply", emptyArr),
     ("documentationSelections", emptyArr),
     ("editTrailContexts", emptyArr),
     ("externalLinks", emptyArr),
     ("knowledgeItems", emptyArr),
     ("projectLayouts", emptyArr),
     ("relevantFiles", emptyArr),
     ("suggestedCodeBlocks", emptyArr),
     ("summarizedComposers", emptyArr),
     ("todos", emptyArr),
     ("uiElementPicked", emptyArr),
     ("userResponsesToSuggestedCodeBlocks", emptyArr),
     ("capabilityStatuses", .jObj
       [("mutate-request", emptyArr),
        ("start-submit-chat", emptyArr),
        ("before-submit-chat", emptyArr),
        ("chat-stream-finished", emptyArr),
        ("before-apply", emptyArr),
        ("after-apply", emptyArr),
        ("accept-all-edits", emptyArr),
        ("composer-done", emptyArr),
        ("process-stream", emptyArr),
        ("add-pending-action", emptyArr)]),
     ("isAgentic", .jBool (message_type == 1)),
     ("existedSubsequentTerminalCommand", .jBool false),
     ("existedPreviousTerminalCommand", .jBool false),
     ("editToolSupportsSearchAndReplace", .jBool true),
     ("isNudge", .jBool false),
     ("isPlanExecution", .jBool false),
     ("isQuickSearchQuery", .jBool false),
     ("isRefunded", .jBool false),
     ("skipRendering", .jBool false),
     ("useWeb", .jBool false),
     ("supportedTools", .jArr ([1, 41, 7, 38, 8, 9, 11, 12, 15, 18, 19,
        25, 27, 43, 46, 47, 29, 30, 32, 34, 35, 39, 40, 42, 44,
        45].map JVal.jNum)),
     ("tokenCount", .jObj [("inputTokens", .jNum 0),
                           ("outputTokens", .jNum 0)]),
     ("context", .jObj
       [("composers", emptyArr), ("quotes", emptyArr),
        ("selectedCommits", emptyArr), ("selectedPullRequests", emptyArr),
        ("selectedImages", emptyArr), ("folderSelections", emptyArr),
        ("fileSelections", emptyArr), ("terminalFiles", emptyArr),
        ("selections", emptyArr), ("terminalSelections", emptyArr),
        ("selectedDocs", emptyArr), ("externalLinks", emptyArr),
        ("cursorRules", emptyArr), ("cursorCommands", emptyArr),
        ("uiElementSelections", emptyArr), ("consoleLogs", emptyArr),
        ("mentions", emptyArr)]),
     ("requestId", .jStr request_id),
     ("checkpointId", .jStr checkpoint_id),
     ("richText", .jStr (dumps rich_text)),
     ("unifiedMode", .jNum 5)]

/-- The `thinking` key added by `create_bubble_data` when the thinking text
is truthy (`if thinking:`). -/
def thinkingField : Option String → BubbleData
  | some t => if t ≠ "" then [("thinking", JVal.jObj
      [("text", .jStr t)])] else []
  | none => []

/-- The `toolFormerData` key added by `create_bubble_data` from the first
tool call when the list is truthy (`if tool_calls:` then
`if len(tool_calls) > 0:`). -/
def toolFormerField : Option (List JVal) → BubbleData
  | some tools =>
    if !tools.isEmpty then
      if tools.length > 0 then
        match tools.head? with
        | some tool => [("toolFormerData", JVal.jObj
            [("name", objGetD tool "name" (.jStr "unknown")),
             ("rawArgs", .jStr (dumps (objGetD tool "arguments"
                (.jObj [])))),
             ("additionalData", .jObj [])])]
        | none => []
      else []
    else []
  | none => []

/-- The `modelInfo` key added for assistant messages. -/
def modelInfoField (message_type : Int) : BubbleData :=
  if message_type == 2 then
    [("modelInfo", JVal.jObj
      [("modelName", .jStr "claude-4.5-sonnet")])]
  else []

/-- `create_bubble_data(bubble_id, message_type, text, thinking,
tool_calls)`.  `request_id`, `checkpoint_id` (uuids) and `created_at`
(timestamp string) are the source's nondeterministic inputs, passed
explicitly.  The source builds the base dict and then conditionally assigns
the `thinking`, `toolFormerData` and `modelInfo` keys, in that order. -/
def create_bubble_data (bubble_id : String) (message_type : Int)
    (text : JVal) (thinking : Option String)
    (tool_calls : Option (List JVal))
    (request_id checkpoint_id created_at : String) : BubbleData :=
  ((bubbleBase bubble_id message_type text request_id checkpoint_id
      created_at
    ++ thinkingField thinking)
    ++ toolFormerField tool_calls)
    ++ modelInfoField message_type

/-- `validate_bubble_structure`: every required field is a key of the
bubble dict. -/
def validate_bubble_structure (bubble_data : BubbleData) : Bool :=
  ["_v", "type", "text", "bubbleId", "createdAt",
   "approximateLintErrors", "lints", "capabilities",
   "capabilityStatuses"].all
    (fun f => bubble_data.any (fun p => p.1 == f))

/-! ### Job store
Embedding of `models/job.py`, `services/job_service.py` and the cancel
endpoint of `api/jobs.py`.  Timestamps are `Nat` values supplied by the
caller (`datetime.now()` oracle).  The store's mutex serializes every
operation, so each operation is a function from store to store. -/

/-- `JobStatus` enum. -/
inductive JobStatus where
  | pending | processing | completed | failed | cancelled
  deriving DecidableEq, Repr

/-- The `Job` dataclass.  `result` is annotated `Optional[str]` in the
source but receives the parser's `text` value, which the dynamic code does
not force to be a string — it is embedded at the value type `JVal`. -/
structure Job where
  job_id : String
  chat_id : String
  prompt : String
  status : JobStatus
  created_at : Nat
  started_at : Option Nat := none
  completed_at : Option Nat := none
  result : Option JVal := none
  error : Option String := none
  user_bubble_id : Option String := none
  assistant_bubble_id : Option String := none
  model : Option String := none
  thinking_content : Option String := none
  tool_calls : Option (List JVal) := none

/-- A value passed through `update_job`'s `**updates`, at the type of the
Job field it is meant for. -/
inductive FieldVal where
  | fStr : String → FieldVal
  | fStatus : JobStatus → FieldVal
  | fNat : Nat → FieldVal
  | fOptNat : Option Nat → FieldVal
  | fOptStr : Option String → FieldVal
  | fOptJVal : Option JVal → FieldVal
  | fOptToolCalls : Option (List JVal) → FieldVal

/-- The attribute names of the `Job` dataclass (`hasattr` domain). -/
def jobAttrNames : List String :=
  ["job_id", "chat_id", "prompt", "status", "created_at", "started_at",
   "completed_at", "result", "error", "user_bubble_id",
   "assistant_bubble_id", "model", "thinking_content", "tool_calls"]

/-- One step of `update_job`'s loop:
`if hasattr(job, key): setattr(job, key, value)`.  A name that is not a
`Job` attribute leaves the job unchanged.  (The typed embedding cannot pair
a known name with a value of the wrong field type; every call site in the
source passes a correctly-typed value.) -/
def applyField (job : Job) (u : String × FieldVal) : Job :=
  match u.2 with
  | .fStr v =>
    if u.1 = "job_id" then { job with job_id := v }
    else if u.1 = "chat_id" then { job with chat_id := v }
    else if u.1 = "prompt" then { job with prompt := v }
    else job
  | .fStatus v =>
    if u.1 = "status" then { job with status := v } else job
  | .fNat v =>
    if u.1 = "created_at" then { job with created_at := v } else job
  | .fOptNat v =>
    if u.1 = "started_at" then { job with started_at := v }
    else if u.1 = "completed_at" then { job with completed_at := v }
    else job
  | .fOptStr v =>
    if u.1 = "error" then { job with error := v }
    else if u.1 = "user_bubble_id" then { job with user_bubble_id := v }
    else if u.1 = "assistant_bubble_id" then
      { job with assistant_bubble_id := v }
    else if u.1 = "model" then { job with model := v }
    else if u.1 = "thinking_content" then
      { job with thinking_content := v }
    else job
  | .fOptJVal v =>
    if u.1 = "result" then { job with result := v } else job
  | .fOptToolCalls v =>
    if u.1 = "tool_calls" then { job with tool_calls := v } else job

/-- `getattr(job, name)` for the 14 `Job` attributes. -/
def jobGetattr (job : Job) (m : String) : Option FieldVal :=
  if m = "job_id" then some (.fStr job.job_id)
  else if m = "chat_id" then some (.fStr job.chat_id)
  else if m = "prompt" then some (.fStr job.prompt)
  else if m = "status" then some (.fStatus job.status)
  else if m = "created_at" then some (.fNat job.created_at)
  else if m = "started_at" then some (.fOptNat job.started_at)
  else if m = "completed_at" then some (.fOptNat job.completed_at)
  else if m = "result" then some (.fOptJVal job.result)
  else if m = "error" then some (.fOptStr job.error)
  else if m = "user_bubble_id" then some (.fOptStr job.user_bubble_id)
  else if m = "assistant_bubble_id" then
    some (.fOptStr job.assistant_bubble_id)
  else if m = "model" then some (.fOptStr job.model)
  else if m = "thinking_content" then
    some (.fOptStr job.thinking_content)
  else if m = "tool_calls" then some (.fOptToolCalls job.tool_calls)
  else none

/-- `jobs_storage`: the global dict, job id → job (keys unique). -/
abbrev JobStore : Type := List (String × Job)

/-- Replace the entry at a key (the in-place mutation of the stored job). -/
def storeSet (store : JobStore) (k : String) (j : Job) : JobStore :=
  store.map (fun p => if p.1 = k then (p.1, j) else p)

/-- `update_job(job_id, **updates)`: under the store lock, look the job up;
if present, set each named attribute that exists on `Job`; return the
updated job, or `None` when the id is unknown. -/
def update_job (store : JobStore) (job_id : String)
    (updates : List (String × FieldVal)) : JobStore × Option Job :=
  match store.lookup job_id with
  | none => (store, none)
  | some job =>
    let j := updates.foldl applyField job
    (storeSet store job_id j, some j)

/-- Result of the `DELETE /jobs/{job_id}` endpoint. -/
inductive CancelResult where
  | notFound : CancelResult
  | alreadyTerminal : JobStatus → CancelResult
  | ok : CancelResult
  deriving DecidableEq, Repr

/-- `cancel_job` (`api/jobs.py`): 404 when unknown; 400 when the status is
`completed` or `failed`; otherwise set status `cancelled`, stamp
`completed_at`, set `error = "Cancelled by user"`. -/
def cancel_job (store : JobStore) (job_id : String) (now : Nat) :
    JobStore × CancelResult :=
  match store.lookup job_id with
  | none => (store, .notFound)
  | some job =>
    if job.status = .completed ∨ job.status = .failed then
      (store, .alreadyTerminal job.status)
    else
      ((update_job store job_id
          [("status", .fStatus .cancelled),
           ("completed_at", .fOptNat (some now)),
           ("error", .fOptStr (some "Cancelled by user"))]).1,
        .ok)

/-- Concrete jobs and store for the C10 witness. -/
def wJob1 : Job :=
  { job_id := "j1", chat_id := "c1", prompt := "p1",
    status := .pending, created_at := 0 }

def wJob2 : Job :=
  { job_id := "j2", chat_id := "c2", prompt := "p2",
    status := .processing, created_at := 1 }

def wStore : JobStore := [("j1", wJob1), ("j2", wJob2)]

def wUpdates : List (String × FieldVal) :=
  [("status", .fStatus .completed), ("shiny", .fStr "x")]

/-! ### Claim C4 -/

/-- A job that was cancelled while its external process was still running
(the interleaving in §5 of the spec). -/
def cancelledJob : Job :=
  { job_id := "j1", chat_id := "c1", prompt := "p",
    status := .cancelled, created_at := 0, started_at := some 1,
    completed_at := some 5, error := some "Cancelled by user" }

/-! ### Conversation store
Embedding of the shared sqlite `cursorDiskKV` table and the write
operations of `database/operations.py`.  A row's key is either
`composerData:{chat_id}` or `bubbleId:{chat_id}:{bubble_id}` (embedded
structurally); a row's value is the JSON-decoded payload.  A connection
carries the committed table plus the uncommitted writes of the open
transaction; `commit` applies them, `rollback` drops them; reads on the
connection see its own uncommitted writes (sqlite semantics).  An `INSERT`
on an existing key raises `IntegrityError`. -/

/-- A `cursorDiskKV` key. -/
inductive DBKey where
  | composerData (chat_id : String)
  | bubbleId (chat_id bubble_id : String)
  deriving DecidableEq, Repr

/-- The committed table. -/
abbrev DBStore : Type := List (DBKey × JVal)

/-- An open sqlite connection. -/
structure Conn where
  committed : DBStore
  pending : DBStore

/-- Read through the connection (uncommitted writes win, last write
first). -/
def connLookup (c : Conn) (k : DBKey) : Option JVal :=
  match c.pending.reverse.lookup k with
  | some v => some v
  | none => c.committed.lookup k

/-- Upsert one row into a table. -/
def dbUpsert (t : DBStore) (k : DBKey) (v : JVal) : DBStore :=
  if (t.lookup k).isSome then
    t.map (fun p => if p.1 = k then (p.1, v) else p)
  else
    t ++ [(k, v)]

/-- `INSERT INTO cursorDiskKV`: `IntegrityError` when the key exists. -/
def dbInsert (c : Conn) (k : DBKey) (v : JVal) : Except String Conn :=
  match connLookup c k with
  | some _ => .error "IntegrityError: UNIQUE constraint failed"
  | none => .ok { c with pending := c.pending ++ [(k, v)] }

/-- `UPDATE cursorDiskKV SET value WHERE key` (key known to exist). -/
def dbUpdate (c : Conn) (k : DBKey) (v : JVal) : Conn :=
  { c with pending := c.pending ++ [(k, v)] }

/-- `conn.commit()`. -/
def dbCommit (c : Conn) : Conn :=
  { committed := c.pending.foldl (fun acc p => dbUpsert acc p.1 p.2)
      c.committed,
    pending := [] }

/-- `conn.rollback()`. -/
def dbRollback (c : Conn) : Conn :=
  { c with pending := [] }

/-- Set a key on a JSON object (replace if present, else append). -/
def objSet (v : JVal) (k : String) (x : JVal) : JVal :=
  match v with
  | .jObj fs =>
    if (dictGet fs k).isSome then
      .jObj (fs.map (fun p => if p.1 = k then (p.1, x) else p))
    else
      .jObj (fs ++ [(k, x)])
  | other => other

/-- Set a key on a JSON object only when missing
(`if k not in metadata: metadata[k] = x`). -/
def objSetIfMissing (v : JVal) (k : String) (x : JVal) : JVal :=
  match v with
  | .jObj fs =>
    if (dictGet fs k).isSome then .jObj fs else .jObj (fs ++ [(k, x)])
  | other => other

/-- The empty Lexical document used for auto-created / backfilled chat
metadata. -/
def emptyRichTextDoc : JVal :=
  .jObj [("root", .jObj
    [("children", .jArr [.jObj
      [("children", .jArr []),
       ("format", .jStr ""),
       ("indent", .jNum 0),
       ("type", .jStr "paragraph"),
       ("version", .jNum 1)]]),
     ("format", .jStr ""),
     ("indent", .jNum 0),
     ("type", .jStr "root"),
     ("version", .jNum 1)])]

/-- The minimal chat metadata created by `ensure_chat_exists`. -/
def newChatMetadata (chat_id : String) (now_ms : Nat) : JVal :=
  .jObj [("_v", .jNum 10),
         ("composerId", .jStr chat_id),
         ("name", .jStr "Untitled"),
         ("richText", .jStr (dumps emptyRichTextDoc)),
         ("hasLoaded", .jBool true),
         ("text", .jStr ""),
         ("fullConversationHeadersOnly", .jArr []),
         ("createdAt", .jNum now_ms),
         ("lastUpdatedAt", .jNum now_ms),
         ("isArchived", .jBool false),
         ("isDraft", .jBool false),
         ("totalLinesAdded", .jNum 0),
         ("totalLinesRemoved", .jNum 0)]

/-- `ensure_chat_exists`: return existing metadata, or insert minimal
metadata and commit it immediately (auto-create). -/
def ensure_chat_exists (c : Conn) (chat_id : String) (now_ms : Nat) :
    Conn × Bool × JVal :=
  match connLookup c (.composerData chat_id) with
  | some metadata => (c, false, metadata)
  | none =>
    let metadata := newChatMetadata chat_id now_ms
    (dbCommit { c with pending :=
        c.pending ++ [(.composerData chat_id, metadata)] },
      true, metadata)

/-- `save_message_to_db`: insert one bubble row (the value is the bubble
payload; the source stores its `json.dumps`). -/
def save_message_to_db (c : Conn) (chat_id bubble_id : String)
    (bubble_data : BubbleData) : Except String Conn :=
  dbInsert c (.bubbleId chat_id bubble_id) (.jObj bubble_data)

/-- `update_chat_metadata`: raise when the chat row is missing; otherwise
backfill `_v`, `hasLoaded`, `text`, `richText`, append the new bubble
headers to `fullConversationHeadersOnly`, bump `lastUpdatedAt`, and UPDATE
the row. -/
def update_chat_metadata (c : Conn) (chat_id : String)
    (new_bubble_ids : List (String × Int)) (now_ms : Nat) :
    Except String Conn :=
  match connLookup c (.composerData chat_id) with
  | none => .error ("Chat " ++ chat_id ++ " not found")
  | some metadata =>
    let metadata := objSetIfMissing metadata "_v" (.jNum 10)
    let metadata := objSetIfMissing metadata "hasLoaded" (.jBool true)
    let metadata := objSetIfMissing metadata "text" (.jStr "")
    let metadata := objSetIfMissing metadata "richText"
      (.jStr (dumps emptyRichTextDoc))
    let headers := objGetD metadata "fullConversationHeadersOnly" (.jArr [])
    let headers := match headers with
      | .jArr hs => JVal.jArr (hs ++ new_bubble_ids.map (fun bi =>
          .jObj [("bubbleId", .jStr bi.1), ("type", .jNum bi.2)]))
      | other => other
    let metadata := objSet metadata "fullConversationHeadersOnly" headers
    let metadata := objSet metadata "lastUpdatedAt" (.jNum now_ms)
    .ok (dbUpdate c (.composerData chat_id) metadata)

/-! ### Agent service
Embedding of `services/agent_service.py` and
`services/ssh_agent_service.py`.  `subprocess.run` is an oracle value: it
either times out or finishes with stdout/stderr/returncode; since the
parser consumes stdout line-by-line through `json.loads`, the oracle also
carries the per-line decode view of the same stdout
(cf. the `parseStream` input convention). -/

/-- `AVAILABLE_MODELS` (`agent_service.py`). -/
def AVAILABLE_MODELS : List String :=
  ["composer-1", "auto", "sonnet-4.5", "sonnet-4.5-thinking",
   "gpt-5", "gpt-5-codex", "gpt-5-codex-high", "grok"]

/-- `settings.cursor_agent_path` (configuration; contents opaque). -/
def cursor_agent_path : String := "~/.local/bin/cursor-agent"

/-- `settings.default_cursor_agent_path`. -/
def default_cursor_agent_path : String := "~/.local/bin/cursor-agent"

/-- Outcome of one `subprocess.run` call. -/
inductive SubprocessOutcome where
  | timedOut : SubprocessOutcome
  | finished (stdout stderr : String)
      (stdoutLines : List (Option JVal)) (returncode : Int) :
      SubprocessOutcome

/-- The response dict of `run_cursor_agent`.  The source joins `command`
with spaces for display; the argv list is kept structured here. -/
structure AgentResponse where
  stdout : String
  stderr : String
  returncode : Int
  success : Bool
  command : List String
  parsed_content : Option ParsedOutput := none
  parse_error : Option PyErr := none

/-- `run_cursor_agent`: build the local command, validate the model against
the allow-list (a `ValueError` is raised and caught by the function's own
`except`, yielding a failure response without running the subprocess),
run the subprocess, and parse stream-json output of a zero-exit run
(a parse exception is caught and recorded as `parse_error`). -/
def run_cursor_agent (chat_id prompt : String) (model : Option String)
    (output_format : String) (timeout : Nat)
    (exec : SubprocessOutcome) : AgentResponse :=
  let cmd0 := [cursor_agent_path, "--print", "--force"]
  let model := model.getD "sonnet-4.5-thinking"
  if ¬ AVAILABLE_MODELS.contains model then
    -- the ValueError is raised before the command is extended with the
    -- model, format, resume token and prompt; the except handler reports
    -- the partially-built command
    { stdout := "",
      stderr := "Invalid model " ++ model ++ ". Available: " ++
        joinStrs ", " AVAILABLE_MODELS,
      returncode := -1, success := false, command := cmd0 }
  else
    let cmd := cmd0 ++ ["--model", model, "--output-format",
      output_format, "--resume", chat_id, prompt]
    match exec with
    | .timedOut =>
      { stdout := "",
        stderr := "Command timed out after " ++ toString timeout ++
          " seconds",
        returncode := -1, success := false, command := cmd }
    | .finished out err lines rc =>
      let base : AgentResponse :=
        { stdout := out, stderr := err, returncode := rc,
          success := rc == 0, command := cmd }
      if output_format = "stream-json" ∧ rc = 0 then
        match parseCursorAgentOutput lines with
        | .ok p => { base with parsed_content := some p }
        | .error e => { base with parse_error := some e }
      else base

/-- A registered remote device (`models/device.py`, read-only here). -/
structure Device where
  id : String
  name : String
  hostname : String
  username : String
  port : Nat
  cursor_agent_path : Option String := none

/-- A chat bound to a remote device. -/
structure RemoteChat where
  device_id : String
  working_directory : String

/-- The ssh invocation built by `execute_remote_cursor_agent`: connect
timeout, batch mode, host-key auto-accept, port, user@host, and the remote
command (directory-change prefix plus the agent argv; the source
shell-quotes each argv token into one string — the quoting is display-only
for every claim and the argv is kept structured). -/
structure SshCommand where
  connect_timeout : Nat
  batch_mode : Bool
  strict_host_key_checking : Bool
  port : Nat
  target : String
  working_directory : String
  argv : List String

/-- The response dict of `execute_remote_cursor_agent`.  `stdoutLines` is
the decode view of `stdout` (oracle data, consumed later by the parser). -/
structure RemoteAgentResponse where
  stdout : String
  stderr : String
  returncode : Int
  success : Bool
  command : SshCommand
  device_id : String
  device_name : String
  stdoutLines : List (Option JVal)

/-- The remote agent argv (`agent_cmd_parts`, ssh_agent_service.py:62-70):
built with whatever model was given — no allow-list validation on the
remote path. -/
def remoteAgentCmdParts (device : Device) (chat_id prompt : String)
    (model : Option String) (output_format : String) : List String :=
  let path := device.cursor_agent_path.getD default_cursor_agent_path
  let model := model.getD "sonnet-4.5-thinking"
  [path, "--print", "--force", "--model", model,
   "--output-format", output_format, "--resume", chat_id, prompt]

/-- `execute_remote_cursor_agent`: build the ssh command and run it; no
model validation happens on this path. -/
def execute_remote_cursor_agent (device : Device)
    (chat_id prompt working_directory : String) (model : Option String)
    (output_format : String) (exec : SubprocessOutcome) :
    RemoteAgentResponse :=
  let ssh_cmd : SshCommand :=
    { connect_timeout := 10, batch_mode := true,
      strict_host_key_checking := false, port := device.port,
      target := device.username ++ "@" ++ device.hostname,
      working_directory := working_directory,
      argv := remoteAgentCmdParts device chat_id prompt model
        output_format }
  match exec with
  | .timedOut =>
    { stdout := "", stderr := "SSH command timed out after 120 seconds",
      returncode := -1, success := false, command := ssh_cmd,
      device_id := device.id, device_name := device.name,
      stdoutLines := [] }
  | .finished out err lines rc =>
    { stdout := out, stderr := err, returncode := rc,
      success := rc == 0, command := ssh_cmd,
      device_id := device.id, device_name := device.name,
      stdoutLines := lines }

/-! ### Job execution engine
Embedding of `_execute_local_job` and `_execute_remote_job`
(`agent_service.py`).  The nondeterministic inputs — timestamps, fresh
uuids, the subprocess outcome, and whether `commit` succeeds — are
supplied in an environment.  Each function returns the final job store,
the final committed conversation store (local path only), and the ordered
list of statuses its `update_job` calls wrote. -/

/-- Oracle inputs of one `_execute_local_job` run. -/
structure LocalEnv where
  nowStart : Nat              -- `started_at` timestamp
  nowEnd : Nat                -- `completed_at` timestamp
  ensure_now_ms : Nat         -- timestamp drawn by `ensure_chat_exists`
  meta_now_ms : Nat           -- timestamp drawn by `update_chat_metadata`
  user_bubble_id : String     -- `uuid4()` for the user turn
  assistant_bubble_id : String
  user_request_id : String
  user_checkpoint_id : String
  user_created_at : String
  asst_request_id : String
  asst_checkpoint_id : String
  asst_created_at : String
  exec : SubprocessOutcome    -- the `subprocess.run` outcome
  commitOk : Bool             -- whether `conn.commit()` succeeds

/-- The engine's failure epilogue: roll the transaction back and mark the
job failed (`except` handlers of `_execute_local_job`). -/
def localFail (store : JobStore) (job_id : String) (c : Conn)
    (nowEnd : Nat) (msg : String) : JobStore × DBStore × List JobStatus :=
  ((update_job store job_id
      [("status", .fStatus .failed),
       ("completed_at", .fOptNat (some nowEnd)),
       ("error", .fOptStr (some msg))]).1,
   (dbRollback c).committed,
   [.processing, .failed])

/-- `_execute_local_job`: mark processing; ensure the chat row; open a
transaction; build, validate and insert the user bubble; run the agent;
on failure roll back and mark failed; otherwise build, validate and insert
the assistant bubble, append both headers to the chat metadata, commit,
and mark completed with the parsed content and both bubble ids.  Any
exception rolls the transaction back and marks the job failed. -/
def execute_local_job (store : JobStore) (db : DBStore) (job_id : String)
    (job : Job) (env : LocalEnv) : JobStore × DBStore × List JobStatus :=
  let store1 := (update_job store job_id
    [("status", .fStatus .processing),
     ("started_at", .fOptNat (some env.nowStart))]).1
  let conn : Conn := { committed := db, pending := [] }
  let conn1 :=
    (ensure_chat_exists conn job.chat_id env.ensure_now_ms).1
  let user_bubble := create_bubble_data env.user_bubble_id 1
    (.jStr job.prompt) none none env.user_request_id
    env.user_checkpoint_id env.user_created_at
  if ¬ validate_bubble_structure user_bubble then
    localFail store1 job_id conn1 env.nowEnd
      "Invalid user bubble structure"
  else
    match save_message_to_db conn1 job.chat_id env.user_bubble_id
        user_bubble with
    | .error e => localFail store1 job_id conn1 env.nowEnd e
    | .ok conn2 =>
      let result := run_cursor_agent job.chat_id job.prompt job.model
        "stream-json" 120 env.exec
      if ¬ result.success then
        localFail store1 job_id conn2 env.nowEnd
          ("cursor-agent failed: " ++ result.stderr)
      else
        let parsed := result.parsed_content
        let ai_response_text : JVal :=
          match parsed with
          | some p => p.text
          | none => .jStr result.stdout.trim
        let thinking : Option String :=
          match parsed with
          | some p => p.thinking
          | none => none
        let tool_calls : Option (List JVal) :=
          match parsed with
          | some p => p.tool_calls
          | none => none
        let assistant_bubble := create_bubble_data
          env.assistant_bubble_id 2 ai_response_text thinking tool_calls
          env.asst_request_id env.asst_checkpoint_id env.asst_created_at
        if ¬ validate_bubble_structure assistant_bubble then
          localFail store1 job_id conn2 env.nowEnd
            "Invalid assistant bubble structure"
        else
          match save_message_to_db conn2 job.chat_id
              env.assistant_bubble_id assistant_bubble with
          | .error e => localFail store1 job_id conn2 env.nowEnd e
          | .ok conn3 =>
            match update_chat_metadata conn3 job.chat_id
                [(env.user_bubble_id, 1), (env.assistant_bubble_id, 2)]
                env.meta_now_ms with
            | .error e => localFail store1 job_id conn3 env.nowEnd e
            | .ok conn4 =>
              if env.commitOk then
                let conn5 := dbCommit conn4
                ((update_job store1 job_id
                    [("status", .fStatus .completed),
                     ("completed_at", .fOptNat (some env.nowEnd)),
                     ("result", .fOptJVal (some ai_response_text)),
                     ("thinking_content", .fOptStr thinking),
                     ("tool_calls", .fOptToolCalls tool_calls),
                     ("user_bubble_id",
                       .fOptStr (some env.user_bubble_id)),
                     ("assistant_bubble_id",
                       .fOptStr (some env.assistant_bubble_id))]).1,
                 conn5.committed,
                 [.processing, .completed])
              else
                localFail store1 job_id conn4 env.nowEnd "commit failed"

/-- Oracle inputs of one `_execute_remote_job` run. -/
structure RemoteEnv where
  nowStart : Nat
  nowEnd : Nat
  device : Option Device      -- `get_device(remote_chat.device_id)`
  exec : SubprocessOutcome
  registryOk : Bool           -- remote-chat/device registry updates succeed

/-- `_execute_remote_job`: mark processing; resolve the device (missing →
failed); run the agent over ssh (failure → failed); parse stdout (a parse
exception falls back to raw stdout); update the remote-chat and device
registries (side effects on a store no claim quantifies over; a raised
exception there still fails the job); mark completed — with `result`,
`thinking_content` and `tool_calls` but, unlike the local path, *no*
bubble ids and no conversation-store writes. -/
def execute_remote_job (store : JobStore) (job_id : String) (job : Job)
    (remote_chat : RemoteChat) (env : RemoteEnv) :
    JobStore × List JobStatus :=
  let store1 := (update_job store job_id
    [("status", .fStatus .processing),
     ("started_at", .fOptNat (some env.nowStart))]).1
  match env.device with
  | none =>
    ((update_job store1 job_id
        [("status", .fStatus .failed),
         ("completed_at", .fOptNat (some env.nowEnd)),
         ("error", .fOptStr (some ("Device not found: " ++
           remote_chat.device_id)))]).1,
     [.processing, .failed])
  | some device =>
    let result := execute_remote_cursor_agent device job.chat_id
      job.prompt remote_chat.working_directory job.model "stream-json"
      env.exec
    if ¬ result.success then
      ((update_job store1 job_id
          [("status", .fStatus .failed),
           ("completed_at", .fOptNat (some env.nowEnd)),
           ("error", .fOptStr (some ("Remote cursor-agent failed: " ++
             result.stderr)))]).1,
       [.processing, .failed])
    else
      let parsed : Option ParsedOutput :=
        match parseCursorAgentOutput result.stdoutLines with
        | .ok p => some p
        | .error _ => none
      let ai_response_text : JVal :=
        match parsed with
        | some p => p.text
        | none => .jStr result.stdout.trim
      let thinking : Option String :=
        match parsed with
        | some p => p.thinking
        | none => none
      let tool_calls : Option (List JVal) :=
        match parsed with
        | some p => p.tool_calls
        | none => none
      if env.registryOk then
        ((update_job store1 job_id
            [("status", .fStatus .completed),
             ("completed_at", .fOptNat (some env.nowEnd)),
             ("result", .fOptJVal (some ai_response_text)),
             ("thinking_content", .fOptStr thinking),
             ("tool_calls", .fOptToolCalls tool_calls)]).1,
         [.processing, .completed])
      else
        ((update_job store1 job_id
            [("status", .fStatus .failed),
             ("completed_at", .fOptNat (some env.nowEnd)),
             ("error", .fOptStr (some "Remote execution error: registry update failed"))]).1,
         [.processing, .failed])

/-! ### Engine lemmas -/

/-- Rows of the conversation store that are turn (bubble) records. -/
def bubbleRows (t : DBStore) : DBStore :=
  t.filter (fun p => match p.1 with
    | .bubbleId _ _ => true
    | _ => false)

/-- Environment for the C2/C1 concrete local runs. -/
def exLocalEnv (exec : SubprocessOutcome) : LocalEnv :=
  { nowStart := 1, nowEnd := 2, ensure_now_ms := 3, meta_now_ms := 4,
    user_bubble_id := "u", assistant_bubble_id := "a",
    user_request_id := "r1", user_checkpoint_id := "k1",
    user_created_at := "t1", asst_request_id := "r2",
    asst_checkpoint_id := "k2", asst_created_at := "t2",
    exec := exec, commitOk := true }

/-- A pending job for the engine test vectors. -/
def exJob : Job :=
  { job_id := "j1", chat_id := "c1", prompt := "hello",
    status := .pending, created_at := 0 }

/-- A concrete failed local run: the agent times out. -/
def c2Run : JobStore × DBStore × List JobStatus :=
  execute_local_job [("j1", exJob)] [] "j1" exJob (exLocalEnv .timedOut)

/-! ### Claim C1 -/

/-- A registered device and a successful remote run for the C1
counterexample. -/
def exDevice : Device :=
  { id := "d1", name := "dev", hostname := "host", username := "user",
    port := 22 }

def c1RemoteRun : JobStore × List JobStatus :=
  execute_remote_job [("j1", exJob)] "j1" exJob
    ⟨"d1", "/tmp/project"⟩
    { nowStart := 1, nowEnd := 2, device := some exDevice,
      exec := .finished "line" "" [some (exResultEv "ok")] 0,
      registryOk := true }

/-- A concrete successful local run for the C1 witness. -/
def c1Run : JobStore × DBStore × List JobStatus :=
  execute_local_job [("j1", exJob)] [] "j1" exJob
    (exLocalEnv (.finished "line" "" [some (exResultEv "ok")] 0))

/-! ### Parser lemmas -/

theorem ok_bind {α β : Type} (a : α) (f : α → Except PyErr β) :
    ((Except.ok a : Except PyErr α) >>= f) = f a := rfl

theorem pyGet_obj (fs : List (String × JVal)) (k : String) :
    pyGet (.jObj fs) k = .ok (dictGet fs k) := rfl

theorem pyGetD_obj (fs : List (String × JVal)) (k : String) (d : JVal) :
    pyGetD (.jObj fs) k d = .ok ((dictGet fs k).getD d) := rfl

theorem pure_eq_ok {α : Type} (a : α) :
    (pure a : Except PyErr α) = .ok a := rfl

theorem isStrVal_ne {o : Option JVal} {a b : String}
    (h : isStrVal o a = true) (hab : b ≠ a) : isStrVal o b = false := by
  cases o with
  | none => rfl
  | some v =>
    cases v <;> simp [isStrVal] at h ⊢
    subst h
    exact fun hb => hab hb.symm

theorem dictGet_nil (k : String) : dictGet [] k = none := rfl

theorem mkToolInfo_ok (afs sfs : List (String × JVal)) :
    mkToolInfo (.jObj afs) (.jObj sfs) =
      .ok (mkToolInfoSpec (.jObj afs) (.jObj sfs)) := by
  by_cases h : truthy (.jObj sfs) <;>
    simp [mkToolInfo, mkToolInfoSpec, pyGetD_obj, pyGet_obj, ok_bind,
      pure_eq_ok, objGetD, h]

theorem processContentItems_eq (items : List JVal) (st : ParserState)
    (h : items.all wfContentItem = true) :
    processContentItems items st =
      .ok { st with assistant_messages :=
              st.assistant_messages ++ (itemTexts items).map JVal.jStr } := by
  induction items generalizing st with
  | nil => simp [processContentItems, itemTexts]
  | cons it rest ih =>
    simp only [List.all_cons, Bool.and_eq_true] at h
    obtain ⟨hit, hrest⟩ := h
    cases it with
    | jObj ifs =>
      simp only [processContentItems, pyGet_obj, ok_bind]
      by_cases hty : isStrVal (dictGet ifs "type") "text"
      · simp only [wfContentItem, hty, if_true] at hit
        simp only [hty, if_true, pyGetD_obj, ok_bind]
        cases htext : dictGet ifs "text" with
        | none =>
          simp [htext, truthy, ih _ hrest, itemTexts, hty]
        | some tv =>
          cases tv with
          | jStr s =>
            by_cases hs : s = "" <;>
              simp [htext, truthy, hs, ih _ hrest, itemTexts, hty,
                List.append_assoc]
          | jNull => simp [strOrAbsent, htext] at hit
          | jBool b => simp [strOrAbsent, htext] at hit
          | jNum n => simp [strOrAbsent, htext] at hit
          | jArr xs => simp [strOrAbsent, htext] at hit
          | jObj o => simp [strOrAbsent, htext] at hit
      · simp [hty, ih _ hrest, itemTexts]
    | jNull => simp [wfContentItem] at hit
    | jBool b => simp [wfContentItem] at hit
    | jNum n => simp [wfContentItem] at hit
    | jStr t => simp [wfContentItem] at hit
    | jArr xs => simp [wfContentItem] at hit

/-- On a well-shaped event, `_process_event` succeeds and acts as the
declarative transition `stepSpec`. -/
theorem processEvent_eq_step (e : JVal) (st : ParserState)
    (he : wfEvent e = true) :
    processEvent e st = .ok (stepSpec e st) := by
  cases e with
  | jNull => simp [wfEvent] at he
  | jBool b => simp [wfEvent] at he
  | jNum n => simp [wfEvent] at he
  | jStr s => simp [wfEvent] at he
  | jArr xs => simp [wfEvent] at he
  | jObj fs =>
    simp only [processEvent, pyGet_obj, ok_bind]
    by_cases h1 : isStrVal (dictGet fs "type") "thinking"
    · have h2 : isStrVal (dictGet fs "type") "tool_call" = false :=
        isStrVal_ne h1 (by decide)
      have h3 : isStrVal (dictGet fs "type") "assistant" = false :=
        isStrVal_ne h1 (by decide)
      have h4 : isStrVal (dictGet fs "type") "result" = false :=
        isStrVal_ne h1 (by decide)
      simp only [h1, if_true, stepSpec, toolInfos, asstTexts, resultStep,
        evIsResultSuccess, evType, evSubtype, thinkStep, h2, h3, h4,
        Bool.false_and, if_false, List.append_nil,
        List.map_nil, cond_false, Bool.false_eq_true, ite_false]
      simp only [processThinking, pyGetD_obj, ok_bind, objGetD]
      by_cases hd : isStrVal (dictGet fs "subtype") "delta"
      · by_cases ht : truthy ((dictGet fs "text").getD (.jStr "")) <;>
          simp [hd, ht, pure_eq_ok]
      · rw [Bool.not_eq_true] at hd
        by_cases hc : isStrVal (dictGet fs "subtype") "completed"
        · by_cases ht : (truthy ((dictGet fs "text").getD (.jStr "")) &&
              st.thinking_parts.isEmpty) = true
          · simp [hd, hc, ht, pure_eq_ok]
          · rw [Bool.not_eq_true] at ht
            simp [hd, hc, ht, pure_eq_ok]
        · rw [Bool.not_eq_true] at hc
          simp [hd, hc, pure_eq_ok]
    · rw [Bool.not_eq_true] at h1
      by_cases h2 : isStrVal (dictGet fs "type") "tool_call"
      · have h3 : isStrVal (dictGet fs "type") "assistant" = false :=
          isStrVal_ne h2 (by decide)
        have h4 : isStrVal (dictGet fs "type") "result" = false :=
          isStrVal_ne h2 (by decide)
        simp only [wfEvent, h1, h2, h3, h4, Bool.false_eq_true, if_false,
          if_true] at he
        simp only [h1, h2, Bool.false_eq_true, if_false, if_true, stepSpec,
          toolInfos, asstTexts, resultStep, evIsResultSuccess, evType,
          evSubtype, thinkStep, h3, h4, Bool.false_and, Bool.and_eq_true,
          List.append_nil, List.map_nil]
        by_cases hsub : isStrVal (dictGet fs "subtype") "completed"
        · simp only [hsub, if_true] at he ⊢
          simp only [processToolCall, hsub, if_true, pyGetD_obj, ok_bind,
            objGetD, Bool.true_and]
          cases htc : dictGet fs "tool_call" with
          | none =>
            simp [htc, dictGet_nil, pyGetD_obj, ok_bind, truthy, pure_eq_ok]
          | some tcv =>
            cases tcv with
            | jObj tc =>
              simp only [htc, Option.getD]
              cases hsh : dictGet tc "shellToolCall" with
              | none =>
                simp [hsh, dictGet_nil, pyGetD_obj, ok_bind, truthy,
                  pure_eq_ok]
              | some shv =>
                cases shv with
                | jObj sh =>
                  simp only [wfToolCallPayload, htc, hsh] at he
                  simp only [hsh, Option.getD, pyGetD_obj, ok_bind]
                  by_cases htr : truthy (.jObj sh)
                  · simp only [Bool.and_eq_true] at he
                    obtain ⟨hargs, hres⟩ := he
                    simp only [htr, if_true]
                    cases ha : dictGet sh "args" with
                    | none =>
                      cases hr : dictGet sh "result" with
                      | none =>
                        simp [ha, hr, pyGetD_obj, ok_bind, dictGet_nil,
                          mkToolInfo_ok, pure_eq_ok, htr]
                      | some rv =>
                        cases rv with
                        | jObj r =>
                          cases hs : dictGet r "success" with
                          | none =>
                            simp [ha, hr, hs, pyGetD_obj, ok_bind,
                              dictGet_nil, mkToolInfo_ok, pure_eq_ok, htr]
                          | some sv =>
                            cases sv with
                            | jObj sfs =>
                              simp [ha, hr, hs, pyGetD_obj, ok_bind,
                                mkToolInfo_ok, pure_eq_ok, htr]
                            | jNull => simp [hr, objOrAbsent, hs] at hres
                            | jBool b => simp [hr, objOrAbsent, hs] at hres
                            | jNum n => simp [hr, objOrAbsent, hs] at hres
                            | jStr t => simp [hr, objOrAbsent, hs] at hres
                            | jArr ys => simp [hr, objOrAbsent, hs] at hres
                        | jNull => simp [hr] at hres
                        | jBool b => simp [hr] at hres
                        | jNum n => simp [hr] at hres
                        | jStr t => simp [hr] at hres
                        | jArr ys => simp [hr] at hres
                    | some av =>
                      cases av with
                      | jObj afs =>
                        cases hr : dictGet sh "result" with
                        | none =>
                          simp [ha, hr, pyGetD_obj, ok_bind, dictGet_nil,
                            mkToolInfo_ok, pure_eq_ok, htr]
                        | some rv =>
                          cases rv with
                          | jObj r =>
                            cases hs : dictGet r "success" with
                            | none =>
                              simp [ha, hr, hs, pyGetD_obj, ok_bind,
                                dictGet_nil, mkToolInfo_ok, pure_eq_ok, htr]
                            | some sv =>
                              cases sv with
                              | jObj sfs =>
                                simp [ha, hr, hs, pyGetD_obj, ok_bind,
                                  mkToolInfo_ok, pure_eq_ok, htr]
                              | jNull =>
                                simp [hr, objOrAbsent, hs] at hres
                              | jBool b =>
                                simp [hr, objOrAbsent, hs] at hres
                              | jNum n =>
                                simp [hr, objOrAbsent, hs] at hres
                              | jStr t =>
                                simp [hr, objOrAbsent, hs] at hres
                              | jArr ys =>
                                simp [hr, objOrAbsent, hs] at hres
                          | jNull => simp [hr] at hres
                          | jBool b => simp [hr] at hres
                          | jNum n => simp [hr] at hres
                          | jStr t => simp [hr] at hres
                          | jArr ys => simp [hr] at hres
                      | jNull => simp [objOrAbsent, ha] at hargs
                      | jBool b => simp [objOrAbsent, ha] at hargs
                      | jNum n => simp [objOrAbsent, ha] at hargs
                      | jStr t => simp [objOrAbsent, ha] at hargs
                      | jArr ys => simp [objOrAbsent, ha] at hargs
                  · rw [Bool.not_eq_true] at htr
                    simp [htr, pure_eq_ok]
                | jNull => simp [wfToolCallPayload, htc, hsh] at he
                | jBool b => simp [wfToolCallPayload, htc, hsh] at he
                | jNum n => simp [wfToolCallPayload, htc, hsh] at he
                | jStr t => simp [wfToolCallPayload, htc, hsh] at he
                | jArr ys => simp [wfToolCallPayload, htc, hsh] at he
            | jNull => simp [wfToolCallPayload, htc] at he
            | jBool b => simp [wfToolCallPayload, htc] at he
            | jNum n => simp [wfToolCallPayload, htc] at he
            | jStr t => simp [wfToolCallPayload, htc] at he
            | jArr ys => simp [wfToolCallPayload, htc] at he
        · rw [Bool.not_eq_true] at hsub
          simp [processToolCall, hsub, pure_eq_ok]
      · rw [Bool.not_eq_true] at h2
        by_cases h3 : isStrVal (dictGet fs "type") "assistant"
        · have h4 : isStrVal (dictGet fs "type") "result" = false :=
            isStrVal_ne h3 (by decide)
          simp only [wfEvent, h1, h2, h3, h4, Bool.false_eq_true, if_false,
            if_true] at he
          simp only [h1, h2, h3, Bool.false_eq_true, if_false, if_true,
            stepSpec, toolInfos, asstTexts, resultStep, evIsResultSuccess,
            evType, evSubtype, thinkStep, h4, Bool.false_and,
            List.append_nil, objGetD]
          simp only [processAssistant, pyGetD_obj, ok_bind]
          cases hm : dictGet fs "message" with
          | none =>
            simp [hm, dictGet_nil, pyGetD_obj, pyIter, ok_bind,
              processContentItems, itemTexts, pure_eq_ok]
          | some mv =>
            cases mv with
            | jObj m =>
              simp only [wfAssistantPayload, hm] at he
              simp only [hm, Option.getD, pyGetD_obj, ok_bind]
              cases hc : dictGet m "content" with
              | none =>
                simp [hc, pyIter, ok_bind, processContentItems, itemTexts,
                  pure_eq_ok]
              | some cv =>
                cases cv with
                | jArr items =>
                  simp only [hc] at he ⊢
                  simp only [Option.getD, pyIter, ok_bind]
                  rw [processContentItems_eq items st he]
                | jNull => simp [hc] at he
                | jBool b => simp [hc] at he
                | jNum n => simp [hc] at he
                | jStr t => simp [hc] at he
                | jObj o => simp [hc] at he
            | jNull => simp [wfAssistantPayload, hm] at he
            | jBool b => simp [wfAssistantPayload, hm] at he
            | jNum n => simp [wfAssistantPayload, hm] at he
            | jStr t => simp [wfAssistantPayload, hm] at he
            | jArr ys => simp [wfAssistantPayload, hm] at he
        · rw [Bool.not_eq_true] at h3
          by_cases h4 : isStrVal (dictGet fs "type") "result"
          · simp only [h1, h2, h3, h4, Bool.false_eq_true, if_false,
              if_true, stepSpec, toolInfos, asstTexts, resultStep,
              evIsResultSuccess, evType, evSubtype, thinkStep, h3,
              Bool.false_and, Bool.true_and, List.append_nil, objGetD]
            simp only [processResult, pyGet_obj, ok_bind]
            by_cases hsub : isStrVal (dictGet fs "subtype") "success"
            · simp [hsub, pyGetD_obj, ok_bind, pure_eq_ok]
            · rw [Bool.not_eq_true] at hsub
              simp [hsub, pure_eq_ok]
          · rw [Bool.not_eq_true] at h4
            simp [h1, h2, h3, h4, stepSpec, toolInfos, asstTexts,
              resultStep, evIsResultSuccess, evType, evSubtype, thinkStep,
              Bool.false_and, pure_eq_ok]

theorem all_isStr_map_jStr (l : List String) :
    (l.map JVal.jStr).all isStr = true := by
  induction l with
  | nil => rfl
  | cons s rest ih => simp [isStr, ih]

theorem stepSpec_wf (e : JVal) (st : ParserState) (he : wfEvent e = true)
    (hst : stWF st = true) : stWF (stepSpec e st) = true := by
  cases e with
  | jNull => simp [wfEvent] at he
  | jBool b => simp [wfEvent] at he
  | jNum n => simp [wfEvent] at he
  | jStr s => simp [wfEvent] at he
  | jArr xs => simp [wfEvent] at he
  | jObj fs =>
    simp only [stWF, Bool.and_eq_true] at hst
    obtain ⟨⟨hth, hmsg⟩, hfr⟩ := hst
    simp only [stWF, stepSpec, Bool.and_eq_true]
    refine ⟨⟨?_, ?_⟩, ?_⟩
    · -- thinking buffer keeps only strings
      by_cases h1 : isStrVal (dictGet fs "type") "thinking"
      · simp only [thinkStep, evType, evSubtype, h1, if_true, objGetD]
        have htxt : isStr ((dictGet fs "text").getD (.jStr "")) = true ∨
            (isStrVal (dictGet fs "subtype") "delta" = false ∧
             isStrVal (dictGet fs "subtype") "completed" = false) := by
          simp only [wfEvent, h1, if_true] at he
          by_cases hd : isStrVal (dictGet fs "subtype") "delta"
          · left
            simp only [hd, Bool.true_or, if_true] at he
            cases htv : dictGet fs "text" with
            | none => simp [isStr]
            | some tv => cases tv <;> simp_all [strOrAbsent, isStr]
          · by_cases hc : isStrVal (dictGet fs "subtype") "completed"
            · left
              simp only [hc, Bool.or_true, if_true] at he
              cases htv : dictGet fs "text" with
              | none => simp [isStr]
              | some tv => cases tv <;> simp_all [strOrAbsent, isStr]
            · right
              rw [Bool.not_eq_true] at hd hc
              exact ⟨hd, hc⟩
        rcases htxt with htxt | ⟨hd, hc⟩
        · by_cases hd : isStrVal (dictGet fs "subtype") "delta" <;>
            by_cases hc : isStrVal (dictGet fs "subtype") "completed" <;>
            split_ifs <;>
            simp_all [List.all_append]
        · simp [hd, hc, hth]
      · simp [thinkStep, evType, h1, hth]
    · simp [List.all_append, hmsg, all_isStr_map_jStr]
    · by_cases hr : evIsResultSuccess (.jObj fs)
      · simp only [resultStep, hr, if_true]
        simp only [evIsResultSuccess, evType, evSubtype,
          Bool.and_eq_true] at hr
        obtain ⟨hty, hsub⟩ := hr
        have h1 : isStrVal (dictGet fs "type") "thinking" = false :=
          isStrVal_ne hty (by decide)
        have h2 : isStrVal (dictGet fs "type") "tool_call" = false :=
          isStrVal_ne hty (by decide)
        have h3 : isStrVal (dictGet fs "type") "assistant" = false :=
          isStrVal_ne hty (by decide)
        simp only [wfEvent, h1, h2, h3, hty, hsub, Bool.false_eq_true,
          if_false, if_true] at he
        simp only [objGetD]
        cases hrv : dictGet fs "result" with
        | none => simp [isStr]
        | some rv => cases rv <;> simp_all [strOrAbsent, isStr]
      · rw [Bool.not_eq_true] at hr
        simp [resultStep, hr, hfr]

theorem processLines_eq (lines : List (Option JVal)) (st : ParserState)
    (hl : wfLines lines = true) :
    processLines lines st = .ok (foldSpec lines st) := by
  induction lines generalizing st with
  | nil => simp [processLines, foldSpec]
  | cons l rest ih =>
    cases l with
    | none =>
      simp only [wfLines, List.all_cons, Bool.and_eq_true] at hl
      simp only [processLines, foldSpec, List.filterMap_cons_none]
      exact ih st hl.2
    | some e =>
      simp only [wfLines, List.all_cons, Bool.and_eq_true] at hl
      simp only [processLines, foldSpec, List.filterMap_cons_some,
        List.foldl_cons]
      rw [processEvent_eq_step e st hl.1, ok_bind]
      exact ih _ hl.2

theorem foldSpec_wf (lines : List (Option JVal)) (st : ParserState)
    (hl : wfLines lines = true) (hst : stWF st = true) :
    stWF (foldSpec lines st) = true := by
  induction lines generalizing st with
  | nil => exact hst
  | cons l rest ih =>
    cases l with
    | none =>
      simp only [wfLines, List.all_cons, Bool.and_eq_true] at hl
      simpa [foldSpec] using ih st hl.2 hst
    | some e =>
      simp only [wfLines, List.all_cons, Bool.and_eq_true] at hl
      simpa [foldSpec] using ih (stepSpec e st) hl.2
        (stepSpec_wf e st hl.1 hst)

theorem resetState_wf : stWF resetState = true := rfl

theorem foldl_append_f {α : Type} (f : JVal → List α) (evs : List JVal)
    (a : List α) :
    evs.foldl (fun acc e => acc ++ f e) a =
      a ++ evs.foldl (fun acc e => acc ++ f e) [] := by
  induction evs generalizing a with
  | nil => simp
  | cons e rest ih =>
    simp only [List.foldl_cons, List.nil_append]
    rw [ih (a ++ f e), ih (f e), List.append_assoc]

theorem foldSpec_final_result (lines : List (Option JVal))
    (st : ParserState) :
    (foldSpec lines st).final_result =
      (lines.filterMap id).foldl (fun a e => resultStep e a)
        st.final_result := by
  unfold foldSpec
  generalize lines.filterMap id = evs
  induction evs generalizing st with
  | nil => rfl
  | cons e rest ih =>
    simp only [List.foldl_cons]
    rw [ih]
    rfl

theorem foldSpec_msgs (lines : List (Option JVal)) (st : ParserState) :
    (foldSpec lines st).assistant_messages =
      st.assistant_messages ++ (allAsstTexts lines).map JVal.jStr := by
  unfold foldSpec allAsstTexts
  generalize lines.filterMap id = evs
  induction evs generalizing st with
  | nil => simp
  | cons e rest ih =>
    simp only [List.foldl_cons, List.nil_append]
    rw [ih, foldl_append_f asstTexts rest (asstTexts e)]
    simp [stepSpec, List.append_assoc]

theorem foldSpec_tools (lines : List (Option JVal)) (st : ParserState) :
    (foldSpec lines st).tool_calls =
      st.tool_calls ++ allToolInfos lines := by
  unfold foldSpec allToolInfos
  generalize lines.filterMap id = evs
  induction evs generalizing st with
  | nil => simp
  | cons e rest ih =>
    simp only [List.foldl_cons, List.nil_append]
    rw [ih, foldl_append_f toolInfos rest (toolInfos e)]
    simp [stepSpec, List.append_assoc]

theorem joinStrs_cons (sep s : String) (t : List String) :
    joinStrs sep (s :: t) =
      if t.isEmpty then s else s ++ sep ++ joinStrs sep t := by
  cases t <;> simp [joinStrs]

theorem pyJoin_ok (sep : String) (l : List JVal)
    (h : l.all isStr = true) :
    pyJoin sep l = .ok (joinStrs sep (strsOf l)) := by
  induction l with
  | nil => rfl
  | cons v rest ih =>
    simp only [List.all_cons, Bool.and_eq_true] at h
    obtain ⟨hv, hrest⟩ := h
    cases v with
    | jStr s =>
      have hcons : strsOf (JVal.jStr s :: rest) = s :: strsOf rest := by
        simp [strsOf, List.filterMap_cons]
      rw [hcons, joinStrs_cons]
      simp only [pyJoin, ih hrest, Except.map]
      have : rest.isEmpty = (strsOf rest).isEmpty := by
        cases rest with
        | nil => rfl
        | cons w rs =>
          simp only [List.all_cons, Bool.and_eq_true] at hrest
          cases w <;> simp_all [isStr, strsOf]
      rw [this]
    | jNull => simp [isStr] at hv
    | jBool b => simp [isStr] at hv
    | jNum n => simp [isStr] at hv
    | jArr xs => simp [isStr] at hv
    | jObj o => simp [isStr] at hv

theorem buildResult_eq (st : ParserState) (h : stWF st = true) :
    buildResult st = .ok
      { text := .jStr (stTextSpec st),
        thinking := if st.thinking_parts.isEmpty then none
                    else some (joinStrs "" (strsOf st.thinking_parts)),
        tool_calls := if st.tool_calls.isEmpty then none
                      else some st.tool_calls,
        assistant_messages := st.assistant_messages } := by
  simp only [stWF, Bool.and_eq_true] at h
  obtain ⟨⟨hth, hmsg⟩, hfr⟩ := h
  simp only [buildResult, stTextSpec]
  by_cases hp : st.thinking_parts.isEmpty
  all_goals
    simp only [hp, Bool.not_true, Bool.not_false, if_true, if_false,
      Bool.false_eq_true, Bool.true_eq_false, ite_true, ite_false,
      pyJoin_ok "" st.thinking_parts hth, Except.map, ok_bind, pure_eq_ok]
  all_goals
    cases hres : st.final_result with
    | none =>
      by_cases hm : st.assistant_messages.isEmpty <;>
        simp_all [pyJoin_ok "\n\n" st.assistant_messages hmsg,
          Except.map, ok_bind, pure_eq_ok, truthy]
    | some v =>
      cases v with
      | jStr sv =>
        by_cases hsv : sv = "" <;>
          by_cases hm : st.assistant_messages.isEmpty <;>
          simp_all [pyJoin_ok "\n\n" st.assistant_messages hmsg,
            Except.map, ok_bind, pure_eq_ok, truthy]
      | jNull => simp [hres, isStr] at hfr
      | jBool b => simp [hres, isStr] at hfr
      | jNum n => simp [hres, isStr] at hfr
      | jArr xs => simp [hres, isStr] at hfr
      | jObj o => simp [hres, isStr] at hfr

theorem strsOf_map_jStr (l : List String) :
    strsOf (l.map JVal.jStr) = l := by
  induction l with
  | nil => rfl
  | cons s rest ih =>
    have : strsOf (List.map JVal.jStr (s :: rest)) =
        s :: strsOf (List.map JVal.jStr rest) := by
      simp [strsOf, List.filterMap_cons]
    rw [this, ih]

/-- Master characterization of `parse_stream` on well-shaped input: it
returns, without raising, the declaratively-computed output. -/
theorem parseStream_eq (self : ParserState) (lines : List (Option JVal))
    (hl : wfLines lines = true) :
    parseStream self lines = .ok
      { text := .jStr (specText lines),
        thinking := specThinking lines,
        tool_calls := if (allToolInfos lines).isEmpty then none
                      else some (allToolInfos lines),
        assistant_messages := (allAsstTexts lines).map JVal.jStr } := by
  unfold parseStream
  rw [processLines_eq lines resetState hl]
  simp only [Except.bind]
  rw [buildResult_eq _ (foldSpec_wf lines resetState hl resetState_wf)]
  have hmsgs : (foldSpec lines resetState).assistant_messages =
      (allAsstTexts lines).map JVal.jStr := by
    rw [foldSpec_msgs]
    exact List.nil_append _
  have htools : (foldSpec lines resetState).tool_calls =
      allToolInfos lines := by
    rw [foldSpec_tools]
    exact List.nil_append _
  have hfr : (foldSpec lines resetState).final_result =
      lastResultOf lines := by
    rw [foldSpec_final_result]
    rfl
  have htext : stTextSpec (foldSpec lines resetState) = specText lines := by
    unfold stTextSpec specText asstFallback
    rw [hfr, hmsgs]
    simp only [strsOf_map_jStr]
    cases hlr : lastResultOf lines with
    | none =>
      by_cases hm : allAsstTexts lines = [] <;>
        simp [hm, List.isEmpty_iff]
    | some v =>
      cases v with
      | jStr sv =>
        by_cases hsv : sv = "" <;>
          by_cases hm : allAsstTexts lines = [] <;>
          simp [hsv, hm, List.isEmpty_iff]
      | jNull =>
        by_cases hm : allAsstTexts lines = [] <;>
          simp [hm, List.isEmpty_iff]
      | jBool b =>
        by_cases hm : allAsstTexts lines = [] <;>
          simp [hm, List.isEmpty_iff]
      | jNum n =>
        by_cases hm : allAsstTexts lines = [] <;>
          simp [hm, List.isEmpty_iff]
      | jArr xs =>
        by_cases hm : allAsstTexts lines = [] <;>
          simp [hm, List.isEmpty_iff]
      | jObj o =>
        by_cases hm : allAsstTexts lines = [] <;>
          simp [hm, List.isEmpty_iff]
  simp only [Except.ok.injEq, ParsedOutput.mk.injEq]
  exact ⟨by rw [htext], rfl, by rw [htools], hmsgs⟩

/-! ### Claim C3 -/

/-- C3 counterexample: the claim says `parse_stream` never raises on any
input string, but on the input `"5"` — one line that is valid JSON yet not
an object — `_process_event` calls `.get` on an `int` and raises
`AttributeError` (only `json.JSONDecodeError` is caught). -/
theorem c3_counterexample :
    parseStream resetState [some (.jNum 5)] =
      .error .attributeError := rfl

/-- C3 (amended): on any input whose decodable lines are all well-shaped
events (`wfLines`), `parse_stream` raises nothing and returns an output
whose `text` is a (non-null) string; and the result is independent of the
parser instance's prior state, so parsing the same input twice yields the
same result. -/
theorem c3_total_and_deterministic (self self' : ParserState)
    (lines : List (Option JVal)) (hl : wfLines lines = true) :
    (∃ r s, parseStream self lines = .ok r ∧ r.text = .jStr s) ∧
    parseStream self lines = parseStream self' lines := by
  refine ⟨⟨_, specText lines, parseStream_eq self lines hl, rfl⟩, ?_⟩
  rw [parseStream_eq self lines hl, parseStream_eq self' lines hl]

/-- Witness for C3 on a concrete stream (a malformed line, an assistant
message and a result event). -/
theorem c3_total_and_deterministic_witness :
    wfLines [none, some (exAssistantEv "hi"), some (exResultEv "ok")]
        = true ∧
    ((∃ r s, parseStream resetState
        [none, some (exAssistantEv "hi"), some (exResultEv "ok")] = .ok r ∧
        r.text = .jStr s) ∧
      parseStream resetState
          [none, some (exAssistantEv "hi"), some (exResultEv "ok")] =
        parseStream { resetState with final_result := some (.jStr "stale") }
          [none, some (exAssistantEv "hi"), some (exResultEv "ok")]) :=
  ⟨rfl, c3_total_and_deterministic resetState
    { resetState with final_result := some (.jStr "stale") }
    [none, some (exAssistantEv "hi"), some (exResultEv "ok")] rfl⟩

/-! ### Claim C6 -/

/-- C6 counterexample: the claim says a present `result`/`success` event's
text always overrides the intermediate assistant messages, but when that
text is the empty string the code's `if not text` falls through to the
assistant buffer: a stream with assistant text `"hi"` and a `result` event
whose text is `""` parses to `text = "hi"`, not `""`. -/
theorem c6_counterexample :
    (parseStream resetState
        [some (exAssistantEv "hi"), some (exResultEv "")]).map
      ParsedOutput.text = .ok (.jStr "hi") ∧ ("hi" : String) ≠ "" :=
  ⟨rfl, by decide⟩

/-- C6 (amended): on well-shaped streams the output `text` is: the last
`result`/`success` event's text when that text is non-empty (overriding the
assistant buffer); otherwise the intermediate assistant texts joined in
order with blank lines; otherwise the empty string — exactly `specText`. -/
theorem c6_text_reduction (self : ParserState)
    (lines : List (Option JVal)) (hl : wfLines lines = true) :
    (parseStream self lines).map ParsedOutput.text =
      .ok (.jStr (specText lines)) := by
  rw [parseStream_eq self lines hl]
  rfl

/-- Witness for C6: a non-empty result text overrides the assistant text. -/
theorem c6_text_reduction_witness :
    wfLines [some (exAssistantEv "hi"), some (exResultEv "ok")] = true ∧
    (parseStream resetState
        [some (exAssistantEv "hi"), some (exResultEv "ok")]).map
      ParsedOutput.text = .ok (.jStr (specText
        [some (exAssistantEv "hi"), some (exResultEv "ok")])) :=
  ⟨rfl, c6_text_reduction resetState
    [some (exAssistantEv "hi"), some (exResultEv "ok")] rfl⟩

/-! ### Claim C8 -/

/-- C8 counterexample: the claim says error-only stubs contribute no entry
to `tool_calls`, but a completed `tool_call` whose `shellToolCall` holds
only an error result is retained (with empty command and no result
fields). -/
theorem c8_counterexample :
    (parseStream resetState [some exErrStubEv]).map
        ParsedOutput.tool_calls =
      .ok (some [.jObj
        [("name", .jStr "run_terminal_cmd"),
         ("command", .jStr ""),
         ("explanation", .jStr ("Execute shell command: ")),
         ("arguments", .jObj [("command", .jStr ""),
                              ("working_directory", .jStr "")])]]) ∧
    (some [(.jObj
        [("name", .jStr "run_terminal_cmd"),
         ("command", .jStr ""),
         ("explanation", .jStr ("Execute shell command: ")),
         ("arguments", .jObj [("command", .jStr ""),
                              ("working_directory", .jStr "")])] : JVal)]) ≠
      (none : Option (List JVal)) :=
  ⟨rfl, by simp⟩

/-- C8 (amended): on well-shaped streams, `tool_calls` consists of exactly
one normalized record per `tool_call`/`completed` event with a truthy
`shellToolCall` payload, in stream order, each carrying name, command and
structured arguments, and exit code / stdout / stderr exactly when a truthy
`success` result is present (`allToolInfos`); in-flight (non-completed)
events and events without a `shellToolCall` payload are dropped, and the
field is `None` when no record was retained. -/
theorem c8_tool_calls_reduction (self : ParserState)
    (lines : List (Option JVal)) (hl : wfLines lines = true) :
    (parseStream self lines).map ParsedOutput.tool_calls =
      .ok (if (allToolInfos lines).isEmpty then none
           else some (allToolInfos lines)) := by
  rw [parseStream_eq self lines hl]
  rfl

/-- Witness for C8: one in-flight event (dropped) and one completed shell
command with a success result (retained). -/
theorem c8_tool_calls_reduction_witness :
    wfLines [some (.jObj [("type", .jStr "tool_call"),
        ("subtype", .jStr "started")]), some exShellEv] = true ∧
    (parseStream resetState [some (.jObj [("type", .jStr "tool_call"),
        ("subtype", .jStr "started")]), some exShellEv]).map
      ParsedOutput.tool_calls =
      .ok (if (allToolInfos [some (.jObj [("type", .jStr "tool_call"),
              ("subtype", .jStr "started")]), some exShellEv]).isEmpty
           then none
           else some (allToolInfos [some (.jObj [("type",
              .jStr "tool_call"), ("subtype", .jStr "started")]),
              some exShellEv])) :=
  ⟨rfl, c8_tool_calls_reduction resetState _ rfl⟩

/-! ### Claim C9 -/

/-- C9: for every bubble id, message type in `{1, 2}`, text, optional
thinking and optional tool-call list (and any drawn uuids/timestamp), the
bubble built by `create_bubble_data` passes `validate_bubble_structure`:
the builder always emits every field the structural validator requires. -/
theorem validate_append (b extra : BubbleData)
    (h : validate_bubble_structure b = true) :
    validate_bubble_structure (b ++ extra) = true := by
  simp only [validate_bubble_structure, List.all_eq_true] at h ⊢
  intro f hf
  simp [List.any_append, h f hf]

theorem validate_bubbleBase (bubble_id : String) (message_type : Int)
    (text : JVal) (request_id checkpoint_id created_at : String) :
    validate_bubble_structure (bubbleBase bubble_id message_type text
      request_id checkpoint_id created_at) = true := by
  simp [validate_bubble_structure, bubbleBase]

theorem create_bubble_data_valid (bubble_id : String)
    (message_type : Int) (text : JVal) (thinking : Option String)
    (tool_calls : Option (List JVal))
    (request_id checkpoint_id created_at : String) :
    validate_bubble_structure
      (create_bubble_data bubble_id message_type text thinking
        tool_calls request_id checkpoint_id created_at) = true := by
  unfold create_bubble_data
  exact validate_append _ _ (validate_append _ _ (validate_append _ _
    (validate_bubbleBase bubble_id message_type text request_id
      checkpoint_id created_at)))

theorem c9_create_bubble_validates (bubble_id : String)
    (message_type : Int) (text : String) (thinking : Option String)
    (tool_calls : Option (List JVal))
    (request_id checkpoint_id created_at : String)
    (h : message_type = 1 ∨ message_type = 2) :
    validate_bubble_structure
      (create_bubble_data bubble_id message_type (.jStr text) thinking
        tool_calls request_id checkpoint_id created_at) = true :=
  create_bubble_data_valid bubble_id message_type (.jStr text) thinking
    tool_calls request_id checkpoint_id created_at

/-- Witness for C9 at a concrete bubble. -/
theorem c9_create_bubble_validates_witness :
    ((2 : Int) = 1 ∨ (2 : Int) = 2) ∧
    validate_bubble_structure
      (create_bubble_data "b-1" 2 (.jStr "hello") (some "because")
        (some [.jObj [("name", .jStr "run_terminal_cmd")]])
        "r-1" "c-1" "2025-01-01T00:00:00Z") = true :=
  ⟨Or.inr rfl, c9_create_bubble_validates "b-1" 2 "hello" (some "because")
    (some [.jObj [("name", .jStr "run_terminal_cmd")]])
    "r-1" "c-1" "2025-01-01T00:00:00Z" (Or.inr rfl)⟩

/-! ### Job-store lemmas -/

theorem applyField_keeps_job_id (j : Job) (u : String × FieldVal)
    (h : u.1 ≠ "job_id") : (applyField j u).job_id = j.job_id := by
  obtain ⟨n, v⟩ := u
  cases v <;> simp only [applyField] <;> split_ifs <;>
    first
      | rfl
      | exact absurd ‹n = "job_id"› h

theorem applyField_keeps_chat_id (j : Job) (u : String × FieldVal)
    (h : u.1 ≠ "chat_id") : (applyField j u).chat_id = j.chat_id := by
  obtain ⟨n, v⟩ := u
  cases v <;> simp only [applyField] <;> split_ifs <;>
    first
      | rfl
      | exact absurd ‹n = "chat_id"› h

theorem applyField_keeps_prompt (j : Job) (u : String × FieldVal)
    (h : u.1 ≠ "prompt") : (applyField j u).prompt = j.prompt := by
  obtain ⟨n, v⟩ := u
  cases v <;> simp only [applyField] <;> split_ifs <;>
    first
      | rfl
      | exact absurd ‹n = "prompt"› h

theorem applyField_keeps_status (j : Job) (u : String × FieldVal)
    (h : u.1 ≠ "status") : (applyField j u).status = j.status := by
  obtain ⟨n, v⟩ := u
  cases v <;> simp only [applyField] <;> split_ifs <;>
    first
      | rfl
      | exact absurd ‹n = "status"› h

theorem applyField_keeps_created_at (j : Job) (u : String × FieldVal)
    (h : u.1 ≠ "created_at") : (applyField j u).created_at = j.created_at := by
  obtain ⟨n, v⟩ := u
  cases v <;> simp only [applyField] <;> split_ifs <;>
    first
      | rfl
      | exact absurd ‹n = "created_at"› h

theorem applyField_keeps_started_at (j : Job) (u : String × FieldVal)
    (h : u.1 ≠ "started_at") : (applyField j u).started_at = j.started_at := by
  obtain ⟨n, v⟩ := u
  cases v <;> simp only [applyField] <;> split_ifs <;>
    first
      | rfl
      | exact absurd ‹n = "started_at"› h

theorem applyField_keeps_completed_at (j : Job) (u : String × FieldVal)
    (h : u.1 ≠ "completed_at") : (applyField j u).completed_at = j.completed_at := by
  obtain ⟨n, v⟩ := u
  cases v <;> simp only [applyField] <;> split_ifs <;>
    first
      | rfl
      | exact absurd ‹n = "completed_at"› h

theorem applyField_keeps_result (j : Job) (u : String × FieldVal)
    (h : u.1 ≠ "result") : (applyField j u).result = j.result := by
  obtain ⟨n, v⟩ := u
  cases v <;> simp only [applyField] <;> split_ifs <;>
    first
      | rfl
      | exact absurd ‹n = "result"› h

theorem applyField_keeps_error (j : Job) (u : String × FieldVal)
    (h : u.1 ≠ "error") : (applyField j u).error = j.error := by
  obtain ⟨n, v⟩ := u
  cases v <;> simp only [applyField] <;> split_ifs <;>
    first
      | rfl
      | exact absurd ‹n = "error"› h

theorem applyField_keeps_user_bubble_id (j : Job) (u : String × FieldVal)
    (h : u.1 ≠ "user_bubble_id") : (applyField j u).user_bubble_id = j.user_bubble_id := by
  obtain ⟨n, v⟩ := u
  cases v <;> simp only [applyField] <;> split_ifs <;>
    first
      | rfl
      | exact absurd ‹n = "user_bubble_id"› h

theorem applyField_keeps_assistant_bubble_id (j : Job) (u : String × FieldVal)
    (h : u.1 ≠ "assistant_bubble_id") : (applyField j u).assistant_bubble_id = j.assistant_bubble_id := by
  obtain ⟨n, v⟩ := u
  cases v <;> simp only [applyField] <;> split_ifs <;>
    first
      | rfl
      | exact absurd ‹n = "assistant_bubble_id"› h

theorem applyField_keeps_model (j : Job) (u : String × FieldVal)
    (h : u.1 ≠ "model") : (applyField j u).model = j.model := by
  obtain ⟨n, v⟩ := u
  cases v <;> simp only [applyField] <;> split_ifs <;>
    first
      | rfl
      | exact absurd ‹n = "model"› h

theorem applyField_keeps_thinking_content (j : Job) (u : String × FieldVal)
    (h : u.1 ≠ "thinking_content") : (applyField j u).thinking_content = j.thinking_content := by
  obtain ⟨n, v⟩ := u
  cases v <;> simp only [applyField] <;> split_ifs <;>
    first
      | rfl
      | exact absurd ‹n = "thinking_content"› h

theorem applyField_keeps_tool_calls (j : Job) (u : String × FieldVal)
    (h : u.1 ≠ "tool_calls") : (applyField j u).tool_calls = j.tool_calls := by
  obtain ⟨n, v⟩ := u
  cases v <;> simp only [applyField] <;> split_ifs <;>
    first
      | rfl
      | exact absurd ‹n = "tool_calls"› h

theorem applyField_ne (j : Job) (n m : String) (v : FieldVal)
    (h : m ≠ n) : jobGetattr (applyField j (n, v)) m = jobGetattr j m := by
  by_cases h1 : m = "job_id"
  · simp [jobGetattr, h1]
    rw [applyField_keeps_job_id j (n, v)
      (fun hn => h (h1.trans hn.symm))]
  by_cases h2 : m = "chat_id"
  · simp [jobGetattr, h2]
    rw [applyField_keeps_chat_id j (n, v)
      (fun hn => h (h2.trans hn.symm))]
  by_cases h3 : m = "prompt"
  · simp [jobGetattr, h3]
    rw [applyField_keeps_prompt j (n, v)
      (fun hn => h (h3.trans hn.symm))]
  by_cases h4 : m = "status"
  · simp [jobGetattr, h4]
    rw [applyField_keeps_status j (n, v)
      (fun hn => h (h4.trans hn.symm))]
  by_cases h5 : m = "created_at"
  · simp [jobGetattr, h5]
    rw [applyField_keeps_created_at j (n, v)
      (fun hn => h (h5.trans hn.symm))]
  by_cases h6 : m = "started_at"
  · simp [jobGetattr, h6]
    rw [applyField_keeps_started_at j (n, v)
      (fun hn => h (h6.trans hn.symm))]
  by_cases h7 : m = "completed_at"
  · simp [jobGetattr, h7]
    rw [applyField_keeps_completed_at j (n, v)
      (fun hn => h (h7.trans hn.symm))]
  by_cases h8 : m = "result"
  · simp [jobGetattr, h8]
    rw [applyField_keeps_result j (n, v)
      (fun hn => h (h8.trans hn.symm))]
  by_cases h9 : m = "error"
  · simp [jobGetattr, h9]
    rw [applyField_keeps_error j (n, v)
      (fun hn => h (h9.trans hn.symm))]
  by_cases h10 : m = "user_bubble_id"
  · simp [jobGetattr, h10]
    rw [applyField_keeps_user_bubble_id j (n, v)
      (fun hn => h (h10.trans hn.symm))]
  by_cases h11 : m = "assistant_bubble_id"
  · simp [jobGetattr, h11]
    rw [applyField_keeps_assistant_bubble_id j (n, v)
      (fun hn => h (h11.trans hn.symm))]
  by_cases h12 : m = "model"
  · simp [jobGetattr, h12]
    rw [applyField_keeps_model j (n, v)
      (fun hn => h (h12.trans hn.symm))]
  by_cases h13 : m = "thinking_content"
  · simp [jobGetattr, h13]
    rw [applyField_keeps_thinking_content j (n, v)
      (fun hn => h (h13.trans hn.symm))]
  by_cases h14 : m = "tool_calls"
  · simp [jobGetattr, h14]
    rw [applyField_keeps_tool_calls j (n, v)
      (fun hn => h (h14.trans hn.symm))]
  simp [jobGetattr, h1, h2, h3, h4, h5, h6, h7, h8, h9, h10, h11, h12, h13, h14]

theorem applyField_unknown (j : Job) (n : String) (v : FieldVal)
    (h : jobAttrNames.contains n = false) : applyField j (n, v) = j := by
  simp only [jobAttrNames, List.contains] at h
  simp only [List.elem_eq_mem, List.mem_cons, List.not_mem_nil, or_false,
    decide_eq_false_iff_not, not_or] at h
  cases v <;> simp [applyField, h.1, h.2.1, h.2.2.1, h.2.2.2.1,
    h.2.2.2.2.1, h.2.2.2.2.2.1, h.2.2.2.2.2.2.1, h.2.2.2.2.2.2.2.1,
    h.2.2.2.2.2.2.2.2.1, h.2.2.2.2.2.2.2.2.2.1,
    h.2.2.2.2.2.2.2.2.2.2.1, h.2.2.2.2.2.2.2.2.2.2.2.1,
    h.2.2.2.2.2.2.2.2.2.2.2.2.1, h.2.2.2.2.2.2.2.2.2.2.2.2.2]

theorem storeSet_cons (pk : String) (pv : Job) (rest : JobStore)
    (k : String) (j : Job) :
    storeSet ((pk, pv) :: rest) k j =
      (if pk = k then (pk, j) else (pk, pv)) :: storeSet rest k j := rfl

theorem lookup_storeSet_ne (store : JobStore) (k k' : String) (j : Job)
    (h : k' ≠ k) : (storeSet store k j).lookup k' = store.lookup k' := by
  induction store with
  | nil => rfl
  | cons p rest ih =>
    obtain ⟨pk, pv⟩ := p
    rw [storeSet_cons]
    by_cases hp : pk = k
    · have hkp : (k' == pk) = false := by
        rw [hp]
        exact beq_eq_false_iff_ne.mpr h
      rw [if_pos hp]
      simp [List.lookup, hkp, ih]
    · rw [if_neg hp]
      cases hb : (k' == pk) <;> simp [List.lookup, hb, ih]

theorem lookup_storeSet_self (store : JobStore) (k : String) (j j0 : Job)
    (h : store.lookup k = some j0) :
    (storeSet store k j).lookup k = some j := by
  induction store with
  | nil => simp [List.lookup] at h
  | cons p rest ih =>
    obtain ⟨pk, pv⟩ := p
    rw [storeSet_cons]
    by_cases hp : pk = k
    · have hkk : (k == pk) = true := by
        rw [hp]
        exact beq_self_eq_true k
      rw [if_pos hp]
      simp [List.lookup, hkk]
    · have hkk : (k == pk) = false :=
        beq_eq_false_iff_ne.mpr (fun hh => hp hh.symm)
      rw [if_neg hp]
      simp only [List.lookup, hkk] at h ⊢
      exact ih h

theorem applyAll_frame (updates : List (String × FieldVal)) (j : Job)
    (m : String)
    (h : m ∉ (updates.filter
        (fun u => jobAttrNames.contains u.1)).map Prod.fst) :
    jobGetattr (updates.foldl applyField j) m = jobGetattr j m := by
  induction updates generalizing j with
  | nil => rfl
  | cons u rest ih =>
    rw [List.foldl_cons]
    by_cases hc : jobAttrNames.contains u.1
    · simp only [List.filter_cons, hc, if_true, List.map_cons,
        List.mem_cons] at h
      push_neg at h
      rw [ih _ h.2]
      exact applyField_ne j u.1 m u.2 h.1
    · rw [Bool.not_eq_true] at hc
      simp only [List.filter_cons, hc, Bool.false_eq_true, if_false] at h
      rw [ih _ h]
      rw [applyField_unknown j u.1 u.2 hc]

theorem applyAll_unknown (updates : List (String × FieldVal)) (j : Job)
    (h : ∀ n ∈ updates.map Prod.fst, jobAttrNames.contains n = false) :
    updates.foldl applyField j = j := by
  induction updates generalizing j with
  | nil => rfl
  | cons u rest ih =>
    simp only [List.map_cons, List.mem_cons] at h
    rw [List.foldl_cons, applyField_unknown j u.1 u.2 (h u.1 (Or.inl rfl))]
    exact ih j (fun n hn => h n (Or.inr hn))

/-! ### Claim C10 -/

/-- C10: `update_job` is a frame-respecting point update of the store:
it returns `None` exactly when the job id is unknown; it leaves every
other job untouched; on the named job it changes at most the attributes
named in `updates` that exist on `Job` (update entries whose names are not
`Job` attributes are silently ignored rather than an error), leaving every
other attribute as it was; and an update consisting only of unknown names
leaves the job exactly as it was while still returning it. -/
theorem c10_update_job_frame (store : JobStore) (job_id : String)
    (updates : List (String × FieldVal)) :
    ((update_job store job_id updates).2 = none ↔
      store.lookup job_id = none) ∧
    (∀ id', id' ≠ job_id →
      (update_job store job_id updates).1.lookup id' =
        store.lookup id') ∧
    (∀ j, store.lookup job_id = some j →
      ∃ j', (update_job store job_id updates).2 = some j' ∧
        (update_job store job_id updates).1.lookup job_id = some j' ∧
        (∀ m, m ∉ (updates.filter
            (fun u => jobAttrNames.contains u.1)).map Prod.fst →
          jobGetattr j' m = jobGetattr j m) ∧
        ((∀ n ∈ updates.map Prod.fst,
            jobAttrNames.contains n = false) → j' = j)) := by
  refine ⟨?_, ?_, ?_⟩
  · unfold update_job
    cases hl : store.lookup job_id <;> simp
  · intro id' hid
    unfold update_job
    cases hl : store.lookup job_id with
    | none => rfl
    | some j => exact lookup_storeSet_ne store job_id id' _ hid
  · intro j hj
    unfold update_job
    rw [hj]
    refine ⟨updates.foldl applyField j, rfl,
      lookup_storeSet_self store job_id _ j hj, ?_, ?_⟩
    · intro m hm
      exact applyAll_frame updates j m hm
    · intro hunk
      exact applyAll_unknown updates j hunk

/-- Witness for C10 at a concrete store: an update naming `status` and an
unknown attribute `shiny`, applied to a two-job store, leaves the other
job's entry untouched. -/
theorem c10_update_job_frame_witness :
    ("j2" : String) ≠ "j1" ∧
    (update_job wStore "j1" wUpdates).1.lookup "j2" = wStore.lookup "j2" :=
  ⟨by decide,
   (c10_update_job_frame wStore "j1" wUpdates).2.1 "j2" (by decide)⟩

/-- C4 evaluated at the failing input: `update_job` is an unconditional
setter with no terminal-state compare-and-set, so when the in-flight work
of an already-`cancelled` job finishes, the engine's completion write
(`status=COMPLETED, completed_at, result` — `_execute_local_job`'s final
`update_job` call) moves the job out of the terminal state: the last
writer wins, not the first. -/
theorem c4_terminal_state_overwritten :
    cancelledJob.status = .cancelled ∧
    ((update_job [("j1", cancelledJob)] "j1"
        [("status", .fStatus .completed),
         ("completed_at", .fOptNat (some 9)),
         ("result", .fOptJVal (some (.jStr "done")))]).1.lookup
      "j1").map Job.status = some .completed :=
  ⟨rfl, rfl⟩

/-! ### Claim C5 -/

/-- C5 counterexample: the claim says cancelling a job in any terminal
state (`completed`, `failed` or `cancelled`) returns an error and changes
nothing, but the endpoint only rejects `completed` and `failed`: cancelling
an already-`cancelled` job succeeds and overwrites `completed_at` (5 → 9).
-/
theorem c5_counterexample :
    (cancel_job [("j1", cancelledJob)] "j1" 9).2 = .ok ∧
    ((cancel_job [("j1", cancelledJob)] "j1" 9).1.lookup "j1").map
      Job.completed_at = some (some 9) ∧
    cancelledJob.completed_at = some 5 :=
  ⟨rfl, rfl, rfl⟩

/-- C5 (amended): for a job whose status is `completed` or `failed`, the
cancel endpoint returns the already-terminal error and leaves the whole
store — hence the job's status, `completed_at`, `result` and `error` —
exactly as it was.  (An already-`cancelled` job is *not* rejected: cancel
succeeds again and refreshes `completed_at` and `error`.) -/
theorem c5_cancel_terminal_rejected (store : JobStore) (job_id : String)
    (now : Nat) (j : Job) (hj : store.lookup job_id = some j)
    (hterm : j.status = .completed ∨ j.status = .failed) :
    cancel_job store job_id now = (store, .alreadyTerminal j.status) := by
  unfold cancel_job
  rw [hj]
  simp [hterm]

/-- Witness for C5 on a concrete completed job. -/
theorem c5_cancel_terminal_rejected_witness :
    ([("j1", { cancelledJob with status := .completed })] :
        JobStore).lookup "j1" =
      some { cancelledJob with status := .completed } ∧
    ((JobStatus.completed = JobStatus.completed ∨
      JobStatus.completed = JobStatus.failed)) ∧
    cancel_job [("j1", { cancelledJob with status := .completed })] "j1" 9 =
      ([("j1", { cancelledJob with status := .completed })],
        .alreadyTerminal .completed) :=
  ⟨rfl, Or.inl rfl,
   c5_cancel_terminal_rejected
     [("j1", { cancelledJob with status := .completed })] "j1" 9
     { cancelledJob with status := .completed } rfl (Or.inl rfl)⟩

theorem update_job_lookup (store : JobStore) (job_id : String)
    (us : List (String × FieldVal)) :
    (update_job store job_id us).1.lookup job_id =
      (store.lookup job_id).map (fun j => us.foldl applyField j) := by
  unfold update_job
  cases hl : store.lookup job_id with
  | none => simp [hl]
  | some j => simp [lookup_storeSet_self store job_id _ j hl]

theorem foldl_fail_status (j : Job) (t : Nat) (msg : String) :
    (List.foldl applyField j
      [("status", .fStatus .failed),
       ("completed_at", .fOptNat (some t)),
       ("error", .fOptStr (some msg))]).status = .failed := by
  simp [applyField]

theorem foldl_processing_status (j : Job) (t : Nat) :
    (List.foldl applyField j
      [("status", .fStatus .processing),
       ("started_at", .fOptNat (some t))]).status = .processing := by
  simp [applyField]

theorem foldl_complete_fields (j : Job) (t : Nat) (r : JVal)
    (th : Option String) (tc : Option (List JVal)) (uid aid : String) :
    (List.foldl applyField j
      [("status", .fStatus .completed),
       ("completed_at", .fOptNat (some t)),
       ("result", .fOptJVal (some r)),
       ("thinking_content", .fOptStr th),
       ("tool_calls", .fOptToolCalls tc),
       ("user_bubble_id", .fOptStr (some uid)),
       ("assistant_bubble_id", .fOptStr (some aid))]).status =
        .completed ∧
    (List.foldl applyField j
      [("status", .fStatus .completed),
       ("completed_at", .fOptNat (some t)),
       ("result", .fOptJVal (some r)),
       ("thinking_content", .fOptStr th),
       ("tool_calls", .fOptToolCalls tc),
       ("user_bubble_id", .fOptStr (some uid)),
       ("assistant_bubble_id", .fOptStr (some aid))]).user_bubble_id =
        some uid ∧
    (List.foldl applyField j
      [("status", .fStatus .completed),
       ("completed_at", .fOptNat (some t)),
       ("result", .fOptJVal (some r)),
       ("thinking_content", .fOptStr th),
       ("tool_calls", .fOptToolCalls tc),
       ("user_bubble_id", .fOptStr (some uid)),
       ("assistant_bubble_id", .fOptStr (some aid))]).assistant_bubble_id
        = some aid := by
  refine ⟨?_, ?_, ?_⟩ <;> simp [applyField]

theorem foldl_remote_complete_status (j : Job) (t : Nat) (r : JVal)
    (th : Option String) (tc : Option (List JVal)) :
    (List.foldl applyField j
      [("status", .fStatus .completed),
       ("completed_at", .fOptNat (some t)),
       ("result", .fOptJVal (some r)),
       ("thinking_content", .fOptStr th),
       ("tool_calls", .fOptToolCalls tc)]).status = .completed ∧
    (List.foldl applyField j
      [("status", .fStatus .completed),
       ("completed_at", .fOptNat (some t)),
       ("result", .fOptJVal (some r)),
       ("thinking_content", .fOptStr th),
       ("tool_calls", .fOptToolCalls tc)]).user_bubble_id =
      j.user_bubble_id := by
  constructor <;> simp [applyField]

theorem bubbleRows_append_composer (t : DBStore) (c : String) (v : JVal) :
    bubbleRows (t ++ [(.composerData c, v)]) = bubbleRows t := by
  simp [bubbleRows, List.filter_append]

theorem bubbleRows_map_composer (t : DBStore) (c : String) (v : JVal) :
    bubbleRows (t.map (fun p =>
      if p.1 = DBKey.composerData c then (p.1, v) else p)) =
      bubbleRows t := by
  induction t with
  | nil => rfl
  | cons p rest ih =>
    obtain ⟨pk, pv⟩ := p
    simp only [List.map_cons]
    by_cases hp : pk = DBKey.composerData c
    · subst hp
      simp only [if_pos rfl]
      simp [bubbleRows, List.filter_cons] at ih ⊢
      exact ih
    · rw [if_neg (by simpa using hp)]
      cases pk <;> simp_all [bubbleRows, List.filter_cons]

theorem bubbleRows_upsert_composer (t : DBStore) (c : String) (v : JVal) :
    bubbleRows (dbUpsert t (.composerData c) v) = bubbleRows t := by
  unfold dbUpsert
  split
  · exact bubbleRows_map_composer t c v
  · exact bubbleRows_append_composer t c v

theorem ensure_committed (c : Conn) (chat_id : String) (now_ms : Nat)
    (hpending : c.pending = []) :
    bubbleRows (ensure_chat_exists c chat_id now_ms).1.committed =
      bubbleRows c.committed := by
  unfold ensure_chat_exists
  cases hl : connLookup c (.composerData chat_id) with
  | some v => rfl
  | none =>
    simp only [dbCommit, hpending, List.nil_append, List.foldl_cons,
      List.foldl_nil]
    exact bubbleRows_upsert_composer c.committed chat_id
      (newChatMetadata chat_id now_ms)

theorem save_committed (c : Conn) (chat_id bubble_id : String)
    (b : BubbleData) (c' : Conn)
    (h : save_message_to_db c chat_id bubble_id b = .ok c') :
    c'.committed = c.committed := by
  unfold save_message_to_db dbInsert at h
  cases hl : connLookup c (.bubbleId chat_id bubble_id) with
  | some v => rw [hl] at h; cases h
  | none =>
    rw [hl] at h
    cases h
    rfl

theorem update_meta_committed (c : Conn) (chat_id : String)
    (bs : List (String × Int)) (now : Nat) (c' : Conn)
    (h : update_chat_metadata c chat_id bs now = .ok c') :
    c'.committed = c.committed := by
  unfold update_chat_metadata at h
  cases hl : connLookup c (.composerData chat_id) with
  | none => rw [hl] at h; cases h
  | some v =>
    rw [hl] at h
    cases h
    rfl

theorem upsertMap_cons (pk : DBKey) (pv : JVal) (rest : DBStore)
    (k : DBKey) (v : JVal) :
    ((pk, pv) :: rest).map (fun p => if p.1 = k then (p.1, v) else p) =
      (if pk = k then (pk, v) else (pk, pv)) ::
        rest.map (fun p => if p.1 = k then (p.1, v) else p) := rfl

theorem dbUpsert_lookup_self (t : DBStore) (k : DBKey) (v : JVal) :
    (dbUpsert t k v).lookup k = some v := by
  unfold dbUpsert
  split
  · rename_i hsome
    induction t with
    | nil => simp [List.lookup] at hsome
    | cons p rest ih =>
      obtain ⟨pk, pv⟩ := p
      rw [upsertMap_cons]
      by_cases hp : pk = k
      · rw [if_pos hp]
        subst hp
        simp [List.lookup]
      · rw [if_neg hp]
        have hkp : (k == pk) = false :=
          beq_eq_false_iff_ne.mpr (fun hh => hp hh.symm)
        simp only [List.lookup, hkp] at hsome ⊢
        exact ih hsome
  · rename_i habs
    induction t with
    | nil => simp [List.lookup]
    | cons p rest ih =>
      obtain ⟨pk, pv⟩ := p
      by_cases hp : k = pk
      · subst hp
        simp [List.lookup] at habs
      · have hkp : (k == pk) = false := beq_eq_false_iff_ne.mpr hp
        simp only [List.lookup, hkp] at habs
        simp only [List.cons_append, List.lookup, hkp]
        exact ih habs

theorem lookup_upsertMap_ne (t : DBStore) (k k' : DBKey) (v : JVal)
    (h : k' ≠ k) :
    (t.map (fun p => if p.1 = k then (p.1, v) else p)).lookup k' =
      t.lookup k' := by
  induction t with
  | nil => rfl
  | cons p rest ih =>
    obtain ⟨pk, pv⟩ := p
    rw [upsertMap_cons]
    by_cases hp : pk = k
    · rw [if_pos hp]
      have hkp : (k' == pk) = false :=
        beq_eq_false_iff_ne.mpr (fun hh => h (hh.trans hp))
      simp only [List.lookup, hkp]
      exact ih
    · rw [if_neg hp]
      cases hb : (k' == pk) <;> simp only [List.lookup, hb] <;>
        first
          | rfl
          | exact ih

theorem lookup_append_single_ne (t : DBStore) (k k' : DBKey) (v : JVal)
    (h : k' ≠ k) : (t ++ [(k, v)]).lookup k' = t.lookup k' := by
  have hkp : (k' == k) = false := beq_eq_false_iff_ne.mpr h
  induction t with
  | nil => simp [List.lookup, hkp]
  | cons p rest ih =>
    obtain ⟨pk, pv⟩ := p
    cases hb : (k' == pk) <;>
      simp only [List.cons_append, List.lookup, hb] <;>
      first
        | rfl
        | exact ih

theorem dbUpsert_lookup_ne (t : DBStore) (k k' : DBKey) (v : JVal)
    (h : k' ≠ k) : (dbUpsert t k v).lookup k' = t.lookup k' := by
  unfold dbUpsert
  split
  · exact lookup_upsertMap_ne t k k' v h
  · exact lookup_append_single_ne t k k' v h

theorem save_ok_spec (c : Conn) (chat bid : String) (b : BubbleData)
    (c' : Conn) (h : save_message_to_db c chat bid b = .ok c') :
    connLookup c (.bubbleId chat bid) = none ∧
    c' = { c with pending :=
      c.pending ++ [(.bubbleId chat bid, .jObj b)] } := by
  unfold save_message_to_db dbInsert at h
  cases hl : connLookup c (.bubbleId chat bid) with
  | some v => rw [hl] at h; cases h
  | none =>
    rw [hl] at h
    cases h
    exact ⟨rfl, rfl⟩

theorem update_meta_ok_spec (c : Conn) (chat : String)
    (bs : List (String × Int)) (now : Nat) (c' : Conn)
    (h : update_chat_metadata c chat bs now = .ok c') :
    ∃ m, c' = { c with pending :=
      c.pending ++ [(.composerData chat, m)] } := by
  unfold update_chat_metadata at h
  cases hl : connLookup c (.composerData chat) with
  | none => rw [hl] at h; cases h
  | some v =>
    rw [hl] at h
    cases h
    exact ⟨_, rfl⟩

theorem ensure_pending (c : Conn) (chat : String) (now : Nat)
    (h : c.pending = []) :
    (ensure_chat_exists c chat now).1.pending = [] := by
  unfold ensure_chat_exists
  cases hl : connLookup c (.composerData chat) with
  | some v => exact h
  | none => rfl

theorem localFail_spec (store : JobStore) (db : DBStore)
    (job_id : String) (c : Conn) (nowStart nowEnd : Nat) (msg : String)
    (s' : JobStore) (d' : DBStore) (t : List JobStatus)
    (hfail : localFail (update_job store job_id
        [("status", .fStatus .processing),
         ("started_at", .fOptNat (some nowStart))]).1 job_id c nowEnd msg
      = (s', d', t))
    (hcommitted : bubbleRows c.committed = bubbleRows db) :
    t = [.processing, .failed] ∧ bubbleRows d' = bubbleRows db ∧
    (s'.lookup job_id).map Job.status =
      (store.lookup job_id).map (fun _ => JobStatus.failed) := by
  unfold localFail at hfail
  simp only [Prod.mk.injEq] at hfail
  obtain ⟨h1, h2, h3⟩ := hfail
  refine ⟨h3.symm, ?_, ?_⟩
  · rw [← h2]
    exact hcommitted
  · rw [← h1, update_job_lookup, update_job_lookup]
    cases store.lookup job_id <;> simp [applyField]

/-- Every `_execute_local_job` run either fails — leaving the turn rows of
the conversation store untouched and the job marked `failed` — or
completes, marking the job `completed` with both bubble ids set and both
turn rows committed to the conversation store. -/
theorem execute_local_dichotomy (store : JobStore) (db : DBStore)
    (job_id : String) (job : Job) (env : LocalEnv) :
    ((execute_local_job store db job_id job env).2.2 =
        [JobStatus.processing, JobStatus.failed] ∧
      bubbleRows (execute_local_job store db job_id job env).2.1 =
        bubbleRows db ∧
      ((execute_local_job store db job_id job env).1.lookup job_id).map
          Job.status =
        (store.lookup job_id).map (fun _ => JobStatus.failed)) ∨
    ((execute_local_job store db job_id job env).2.2 =
        [JobStatus.processing, JobStatus.completed] ∧
      ((execute_local_job store db job_id job env).1.lookup job_id).map
          Job.status =
        (store.lookup job_id).map (fun _ => JobStatus.completed) ∧
      ((execute_local_job store db job_id job env).1.lookup job_id).map
          Job.user_bubble_id =
        (store.lookup job_id).map
          (fun _ => some env.user_bubble_id) ∧
      ((execute_local_job store db job_id job env).1.lookup job_id).map
          Job.assistant_bubble_id =
        (store.lookup job_id).map
          (fun _ => some env.assistant_bubble_id) ∧
      ((execute_local_job store db job_id job env).2.1.lookup
        (.bubbleId job.chat_id env.user_bubble_id)).isSome = true ∧
      ((execute_local_job store db job_id job env).2.1.lookup
        (.bubbleId job.chat_id env.assistant_bubble_id)).isSome =
        true) := by
  rcases hrun : execute_local_job store db job_id job env with ⟨s', d', t⟩
  simp only [hrun]
  simp only [execute_local_job, create_bubble_data_valid,
    eq_self_iff_true, not_true, if_false] at hrun
  split at hrun
  · -- user-bubble INSERT raised
    exact Or.inl (localFail_spec store db job_id _ env.nowStart
      env.nowEnd _ s' d' t hrun
      (ensure_committed ⟨db, []⟩ job.chat_id env.ensure_now_ms rfl))
  · rename_i conn2 hsave1
    split at hrun
    · -- cursor-agent failed
      refine Or.inl (localFail_spec store db job_id _ env.nowStart
        env.nowEnd _ s' d' t hrun ?_)
      rw [save_committed _ _ _ _ _ hsave1]
      exact ensure_committed ⟨db, []⟩ job.chat_id env.ensure_now_ms rfl
    · split at hrun
      · -- assistant-bubble INSERT raised
        refine Or.inl (localFail_spec store db job_id _ env.nowStart
          env.nowEnd _ s' d' t hrun ?_)
        rw [save_committed _ _ _ _ _ hsave1]
        exact ensure_committed ⟨db, []⟩ job.chat_id env.ensure_now_ms rfl
      · rename_i conn3 hsave2
        split at hrun
        · -- chat metadata row missing
          refine Or.inl (localFail_spec store db job_id _ env.nowStart
            env.nowEnd _ s' d' t hrun ?_)
          rw [save_committed _ _ _ _ _ hsave2,
            save_committed _ _ _ _ _ hsave1]
          exact ensure_committed ⟨db, []⟩ job.chat_id env.ensure_now_ms rfl
        · rename_i conn4 hmeta
          split at hrun
          · -- SUCCESS: committed and completed
            simp only [Prod.mk.injEq] at hrun
            obtain ⟨h1, h2, h3⟩ := hrun
            obtain ⟨hl1, hc2⟩ := save_ok_spec _ _ _ _ _ hsave1
            obtain ⟨hl2, hc3⟩ := save_ok_spec _ _ _ _ _ hsave2
            obtain ⟨m, hc4⟩ := update_meta_ok_spec _ _ _ _ _ hmeta
            have hp1 : (ensure_chat_exists ⟨db, []⟩ job.chat_id
                env.ensure_now_ms).1.pending = [] :=
              ensure_pending ⟨db, []⟩ job.chat_id env.ensure_now_ms rfl
            have hne : DBKey.bubbleId job.chat_id env.assistant_bubble_id
                ≠ DBKey.bubbleId job.chat_id env.user_bubble_id := by
              intro heq
              rw [hc2] at hl2
              simp [connLookup, hp1, heq, List.lookup] at hl2
            right
            refine ⟨h3.symm, ?_, ?_, ?_, ?_, ?_⟩
            · rw [← h1, update_job_lookup, update_job_lookup]
              cases store.lookup job_id <;> simp [applyField]
            · rw [← h1, update_job_lookup, update_job_lookup]
              cases store.lookup job_id <;> simp [applyField]
            · rw [← h1, update_job_lookup, update_job_lookup]
              cases store.lookup job_id <;> simp [applyField]
            · rw [← h2, hc4, hc3, hc2]
              simp only [dbCommit, hp1, List.nil_append,
                List.singleton_append, List.cons_append,
                List.foldl_cons, List.foldl_nil]
              rw [dbUpsert_lookup_ne _ _ _ _ (by simp),
                dbUpsert_lookup_ne _ _ _ _ (Ne.symm hne),
                dbUpsert_lookup_self]
              rfl
            · rw [← h2, hc4, hc3, hc2]
              simp only [dbCommit, hp1, List.nil_append,
                List.singleton_append, List.cons_append,
                List.foldl_cons, List.foldl_nil]
              rw [dbUpsert_lookup_ne _ _ _ _ (by simp),
                dbUpsert_lookup_self]
              rfl
          · -- commit raised
            refine Or.inl (localFail_spec store db job_id _ env.nowStart
              env.nowEnd _ s' d' t hrun ?_)
            rw [update_meta_committed _ _ _ _ _ hmeta,
              save_committed _ _ _ _ _ hsave2,
              save_committed _ _ _ _ _ hsave1]
            exact ensure_committed ⟨db, []⟩ job.chat_id env.ensure_now_ms
              rfl

/-! ### Claim C2 -/

/-- C2: a locally-dispatched job that reaches `failed` leaves no turn
(bubble) record visible in the conversation store: whatever bubble inserts
happened before the failure are rolled back, so the committed turn rows
after the run are exactly those before it.  (The remote path performs no
conversation-store writes at all, as its type shows.) -/
theorem c2_failed_job_leaves_no_turns (store : JobStore) (db : DBStore)
    (job_id : String) (job : Job) (env : LocalEnv) (j' : Job)
    (hj : (execute_local_job store db job_id job env).1.lookup job_id =
      some j')
    (hst : j'.status = .failed) :
    bubbleRows (execute_local_job store db job_id job env).2.1 =
      bubbleRows db := by
  rcases execute_local_dichotomy store db job_id job env with
    ⟨_, hdb, _⟩ | ⟨_, hstat, _⟩
  · exact hdb
  · rw [hj] at hstat
    cases hsl : store.lookup job_id <;> rw [hsl] at hstat <;>
      simp at hstat
    rw [hst] at hstat
    cases hstat

/-- Witness for C2: the timed-out run marks the job failed and adds no
bubble rows. -/
theorem c2_failed_job_leaves_no_turns_witness :
    (c2Run.1.lookup "j1" =
      some ((c2Run.1.lookup "j1").getD exJob)) ∧
    ((c2Run.1.lookup "j1").getD exJob).status = .failed ∧
    bubbleRows c2Run.2.1 = bubbleRows [] :=
  ⟨rfl, rfl,
   c2_failed_job_leaves_no_turns [("j1", exJob)] [] "j1" exJob
     (exLocalEnv .timedOut) ((c2Run.1.lookup "j1").getD exJob) rfl rfl⟩

/-- C1 counterexample: the claim covers remotely-dispatched jobs, but a
remote job that completes successfully carries *no* bubble ids — the
remote path never writes turn records or bubble ids at all
(`_execute_remote_job`'s completion `update_job` call omits them). -/
theorem c1_counterexample :
    (c1RemoteRun.1.lookup "j1").map
      (fun j => (j.status, j.user_bubble_id, j.assistant_bubble_id)) =
      some (JobStatus.completed, none, none) := rfl

/-- C1 (amended): a *locally*-dispatched job that reaches `completed`
carries exactly one non-null user bubble id and one non-null assistant
bubble id (the freshly drawn uuids), and a turn record keyed by
`(chat_id, bubble id)` exists in the committed conversation store for
each of them.  (A remotely-dispatched completed job carries no bubble ids
and writes no local turn records; the conversation lives on the remote
device.) -/
theorem c1_local_completed_has_turns (store : JobStore) (db : DBStore)
    (job_id : String) (job : Job) (env : LocalEnv) (j' : Job)
    (hj : (execute_local_job store db job_id job env).1.lookup job_id =
      some j')
    (hst : j'.status = .completed) :
    j'.user_bubble_id = some env.user_bubble_id ∧
    j'.assistant_bubble_id = some env.assistant_bubble_id ∧
    ((execute_local_job store db job_id job env).2.1.lookup
      (.bubbleId job.chat_id env.user_bubble_id)).isSome = true ∧
    ((execute_local_job store db job_id job env).2.1.lookup
      (.bubbleId job.chat_id env.assistant_bubble_id)).isSome = true := by
  rcases execute_local_dichotomy store db job_id job env with
    ⟨_, _, hstat⟩ | ⟨_, _, huser, hasst, hdb1, hdb2⟩
  · rw [hj] at hstat
    cases hsl : store.lookup job_id <;> rw [hsl] at hstat <;>
      simp at hstat
    rw [hst] at hstat
    cases hstat
  · rw [hj] at huser hasst
    cases hsl : store.lookup job_id <;> rw [hsl] at huser hasst <;>
      simp at huser hasst
    exact ⟨huser, hasst, hdb1, hdb2⟩

/-- Witness for C1 on the successful local run. -/
theorem c1_local_completed_has_turns_witness :
    (c1Run.1.lookup "j1" = some ((c1Run.1.lookup "j1").getD exJob)) ∧
    ((c1Run.1.lookup "j1").getD exJob).status = .completed ∧
    (((c1Run.1.lookup "j1").getD exJob).user_bubble_id = some "u" ∧
     ((c1Run.1.lookup "j1").getD exJob).assistant_bubble_id = some "a" ∧
     (c1Run.2.1.lookup (.bubbleId "c1" "u")).isSome = true ∧
     (c1Run.2.1.lookup (.bubbleId "c1" "a")).isSome = true) :=
  ⟨rfl, rfl,
   c1_local_completed_has_turns [("j1", exJob)] [] "j1" exJob
     (exLocalEnv (.finished "line" "" [some (exResultEv "ok")] 0))
     ((c1Run.1.lookup "j1").getD exJob) rfl rfl⟩

/-! ### Claim C7 -/

/-- C7 counterexample: the claim says a job with an unknown model never
enters `processing`; but `_execute_local_job` marks the job `processing`
*before* model validation, and only then fails: the status sequence
written for a job whose model is `"bogus"` is `[processing, failed]`, and
the first write lands in the store. -/
theorem c7_counterexample :
    (execute_local_job [("j1", { exJob with model := some "bogus" })]
        [] "j1" { exJob with model := some "bogus" }
        (exLocalEnv (.finished "" "" [] 0))).2.2 =
      [JobStatus.processing, JobStatus.failed] ∧
    ((update_job [("j1", { exJob with model := some "bogus" })] "j1"
        [("status", .fStatus .processing),
         ("started_at", .fOptNat (some 1))]).1.lookup "j1").map
      Job.status = some JobStatus.processing :=
  ⟨rfl, rfl⟩

/-- C7 (amended): for a model identifier outside the allow-list, the
*local* path rejects before dispatching — `run_cursor_agent` returns a
failure without consulting the subprocess at all (its result is
independent of the subprocess outcome), and the job transitions
`processing → failed`; but this rejection happens only after the job has
entered `processing`, and the *remote* path performs no allow-list check:
it builds the remote command with the unknown model and dispatches it. -/
theorem c7_model_validation (m : String)
    (hm : AVAILABLE_MODELS.contains m = false) :
    (∀ chat prompt output_format timeout exec exec2,
      run_cursor_agent chat prompt (some m) output_format timeout exec =
        run_cursor_agent chat prompt (some m) output_format timeout
          exec2) ∧
    (∀ chat prompt output_format timeout exec,
      (run_cursor_agent chat prompt (some m) output_format timeout
        exec).success = false) ∧
    (∀ store db job_id job env, job.model = some m →
      (execute_local_job store db job_id job env).2.2 =
        [JobStatus.processing, JobStatus.failed]) ∧
    (∀ device chat prompt wd output_format exec,
      m ∈ (execute_remote_cursor_agent device chat prompt wd (some m)
        output_format exec).command.argv) := by
  have hmem : m ∉ AVAILABLE_MODELS := by simpa using hm
  refine ⟨?_, ?_, ?_, ?_⟩
  · intro chat prompt output_format timeout exec exec2
    simp [run_cursor_agent, hmem]
  · intro chat prompt output_format timeout exec
    simp [run_cursor_agent, hmem]
  · intro store db job_id job env hmodel
    rcases execute_local_dichotomy store db job_id job env with
      ⟨ht, _, _⟩ | ⟨ht, _, _⟩
    · exact ht
    · exfalso
      rcases hsucc : execute_local_job store db job_id job env with
        ⟨s', d', t⟩
      rw [hsucc] at ht
      simp only [execute_local_job, create_bubble_data_valid,
        eq_self_iff_true, not_true, if_false] at hsucc
      have hfail : (run_cursor_agent job.chat_id job.prompt job.model
          "stream-json" 120 env.exec).success = false := by
        simp [run_cursor_agent, hmodel, hmem]
      split at hsucc
      · simp only [localFail, Prod.mk.injEq] at hsucc
        obtain ⟨_, _, h3⟩ := hsucc
        rw [← h3] at ht
        cases ht
      · rw [if_pos (by rw [hfail]; exact Bool.false_ne_true)] at hsucc
        simp only [localFail, Prod.mk.injEq] at hsucc
        obtain ⟨_, _, h3⟩ := hsucc
        rw [← h3] at ht
        cases ht
  · intro device chat prompt wd output_format exec
    cases exec <;>
      simp [execute_remote_cursor_agent, remoteAgentCmdParts]

/-- Witness for C7 at the unknown model `"bogus"`. -/
theorem c7_model_validation_witness :
    AVAILABLE_MODELS.contains "bogus" = false ∧
    (run_cursor_agent "c1" "p" (some "bogus") "stream-json" 120
      (.finished "" "" [] 0)).success = false :=
  ⟨rfl, (c7_model_validation "bogus" rfl).2.1 "c1" "p" "stream-json" 120
    (.finished "" "" [] 0)⟩

end Blink

